import Mathlib

/-!
# Gateway role provisioning (logic/gateway.go)

A shallow embedding of the egress / ingress gateway operations of
`logic/gateway.go`.  Go strings are Lean strings, `+` is `++`, Go's
`(value, error)` results are kept as a value together with an optional error,
and the record store the operations read and write is an explicit `Store`
that is threaded through every call.  The collaborators the file calls but
does not define (node and network lookup, `database.Insert`, change
propagation, the external client directory) act on that store, and an `Env`
says which of them fail.  `json.Marshal` of a node record cannot fail and
`logger.Log` has no effect on the result, so neither appears.
-/

set_option autoImplicit false
set_option maxRecDepth 100000

namespace Netmaker

/-! ## Strings -/

/-- Scan of `strings.Contains` over the characters of the two strings: is
`substr` a prefix of some suffix of the first list? -/
def containsChars : List Char → List Char → Bool
  | [], substr => substr.isEmpty
  | c :: cs, substr => substr.isPrefixOf (c :: cs) || containsChars cs substr

/-- Go's `strings.Contains(s, substr)`.  Go compares bytes; on well-formed
UTF-8 text a byte-wise match is a character-wise match, so the scan runs over
the characters. -/
def stringsContains (s substr : String) : Bool :=
  containsChars s.data substr.data

/-- Number of positions of the first list at which `substr` starts. -/
def countChars : List Char → List Char → Nat
  | [], substr => if substr.isEmpty then 1 else 0
  | c :: cs, substr => (if substr.isPrefixOf (c :: cs) then 1 else 0) + countChars cs substr

/-- Go's `strings.Count`-like number of (possibly overlapping) occurrences of
`substr` in `s`, counted by starting position. -/
def occurrences (s substr : String) : Nat :=
  countChars s.data substr.data

/-! ## Data model -/

/-- A Go `error`, represented by its message (`err.Error()`). -/
abbrev Error := String

/-- Modelled from the spec: `models.Node` is declared outside `logic/gateway.go`;
these are the fields the gateway operations read or write (section 3, Node). -/
structure Node where
  ID : String
  Network : String
  OS : String
  Interface : String
  IsEgressGateway : String
  EgressGatewayRanges : List String
  EgressGatewayNatEnabled : String
  IsIngressGateway : String
  IngressGatewayRange : String
  IsNFTablesPresent : String
  PostUp : String
  PostDown : String
  UDPHolePunch : String
  LastModified : Int
  deriving DecidableEq, Repr

/-- The Go zero value `models.Node{}`. -/
def emptyNode : Node :=
  { ID := "", Network := "", OS := "", Interface := "", IsEgressGateway := "",
    EgressGatewayRanges := [], EgressGatewayNatEnabled := "", IsIngressGateway := "",
    IngressGatewayRange := "", IsNFTablesPresent := "", PostUp := "", PostDown := "",
    UDPHolePunch := "", LastModified := 0 }

/-- Modelled from the spec: `models.EgressGatewayRequest` is declared outside
`logic/gateway.go`; the fields are those the code reads (section 6: network,
node id, ranges, interface, NAT flag, optional override commands). -/
structure EgressGatewayRequest where
  NodeID : String
  NetID : String
  NatEnabled : String
  Ranges : List String
  Interface : String
  PostUp : String
  PostDown : String
  deriving DecidableEq, Repr

/-- Modelled from the spec: `models.Network` is declared outside
`logic/gateway.go`; a network owns an address range and a default hole-punch
policy (section 3, Network). -/
structure Network where
  NetID : String
  AddressRange : String
  DefaultUDPHolePunch : String
  deriving DecidableEq, Repr

/-- The Go zero value `models.Network{}`. -/
def emptyNetwork : Network :=
  { NetID := "", AddressRange := "", DefaultUDPHolePunch := "" }

/-- Modelled from the spec: `models.ExtClient` is declared outside
`logic/gateway.go`; an external client carries its identifier, its network and
the identifier of the owning ingress gateway (section 3, External Client). -/
structure ExtClient where
  ClientID : String
  Network : String
  IngressGatewayID : String
  deriving DecidableEq, Repr

/-- Modelled from the spec: the Record Store of section 2, a key-value store
with named tables.  `nodes` is the node table (one record per node, keyed by
node identifier), `networks` the network records, `extclients` the external
client records, and `revisions` the log of networks whose nodes were marked as
having a newer revision by change propagation. -/
structure Store where
  nodes : List (String × Node)
  networks : List Network
  extclients : List ExtClient
  revisions : List String
  deriving DecidableEq, Repr

/-- Modelled from the spec: the outcomes of the external collaborators that the
gateway code cannot control.  `now` is the clock read by `SetLastModified`;
each optional error, when present, is the failure the named collaborator
reports. -/
structure Env where
  now : Int
  lookupErr : Option Error
  networkErr : Option Error
  insertErr : Option Error
  pullErr : Option Error
  lastModifiedErr : Option Error
  listErr : Option Error
  deleteErr : String → Option Error

/-- Modelled from the spec: `database.NO_RECORD`, the "not found" sentinel of
the Record Store. -/
def NO_RECORD : Error := "no result found"

/-- Modelled from the spec: `database.NO_RECORDS`, the "no records" sentinel of
the Record Store. -/
def NO_RECORDS : Error := "could not find any records"

/-- Modelled from the spec: `database.IsEmptyRecord`, true of an error that is
the empty-record sentinel. -/
def IsEmptyRecord (err : Option Error) : Bool :=
  match err with
  | none => false
  | some e => stringsContains e NO_RECORD || stringsContains e NO_RECORDS

/-- Modelled from the spec: `GetNodeByID`, lookup of a node record by
identifier in the node table (section 2, Node Directory).  A failed lookup
returns the zero node together with the error. -/
def GetNodeByID (env : Env) (s : Store) (uuid : String) : Node × Option Error :=
  match env.lookupErr with
  | some err => (emptyNode, some err)
  | none =>
    match s.nodes.lookup uuid with
    | some node => (node, none)
    | none => (emptyNode, some NO_RECORD)

/-- Modelled from the spec: `GetParentNetwork`, lookup of a network record by
identifier (section 2, Node Directory). -/
def GetParentNetwork (env : Env) (s : Store) (netid : String) : Network × Option Error :=
  match env.networkErr with
  | some err => (emptyNetwork, some err)
  | none =>
    match s.networks.find? (fun n => n.NetID = netid) with
    | some network => (network, none)
    | none => (emptyNetwork, some NO_RECORD)

/-- Modelled from the spec: `database.Insert` into the node table,
insert/overwrite by key (section 2, Record Store). -/
def InsertNode (env : Env) (s : Store) (key : String) (node : Node) : Option Error × Store :=
  match env.insertErr with
  | some err => (some err, s)
  | none => (none, { s with nodes := (key, node) :: s.nodes.filter (fun kv => kv.1 ≠ key) })

/-- Store after a successful `database.Insert` of `node` under its own ID. -/
def withNode (s : Store) (node : Node) : Store :=
  { s with nodes := (node.ID, node) :: s.nodes.filter (fun kv => kv.1 ≠ node.ID) }

/-- Store after a successful change propagation for `network`. -/
def withRevision (s : Store) (network : String) : Store :=
  { s with revisions := network :: s.revisions }

/-- Modelled from the spec: `NetworkNodesUpdatePullChanges`, change propagation
that marks all nodes of a network as having a newer revision (section 2). -/
def NetworkNodesUpdatePullChanges (env : Env) (s : Store) (network : String) :
    Option Error × Store :=
  match env.pullErr with
  | some err => (some err, s)
  | none => (none, { s with revisions := network :: s.revisions })

/-- Modelled from the spec: `SetNetworkNodesLastModified`, change propagation
that marks a network's metadata as having a newer revision (section 2). -/
def SetNetworkNodesLastModified (env : Env) (s : Store) (netid : String) :
    Option Error × Store :=
  match env.lastModifiedErr with
  | some err => (some err, s)
  | none => (none, { s with revisions := netid :: s.revisions })

/-- Modelled from the spec: `GetNetworkExtClients`, lookup of all external
client records of a network (section 2, External Client Directory). -/
def GetNetworkExtClients (env : Env) (s : Store) (network : String) :
    List ExtClient × Option Error :=
  match env.listErr with
  | some err => ([], some err)
  | none => (s.extclients.filter (fun c => c.Network = network), none)

/-- Modelled from the spec: `DeleteExtClient`, deletion of one client by
network and identifier (section 2, External Client Directory). -/
def DeleteExtClient (env : Env) (s : Store) (network clientid : String) :
    Option Error × Store :=
  match env.deleteErr clientid with
  | some err => (some err, s)
  | none =>
    (none, { s with extclients :=
      s.extclients.filter (fun c => ¬ (c.ClientID = clientid ∧ c.Network = network)) })

/-- What a gateway operation hands back: the Go result pair `(models.Node,
error)` and the store as the call left it. -/
structure Outcome where
  node : Node
  err : Option Error
  store : Store

/-! ## logic/gateway.go -/

/-- `ValidateEgressGateway` (lines 110-122): `none` is Go's `nil` error. -/
def ValidateEgressGateway (gateway : EgressGatewayRequest) : Option Error :=
  let err : Option Error := none
  let empty := gateway.Ranges.length = 0
  let err := if empty then some "IP Ranges Cannot Be Empty" else err
  let empty := gateway.Interface = ""
  let err := if empty then some "interface cannot be empty" else err
  err

/-- Lines 33-75 of `CreateEgressGateway`: the pair `(postUpCmd, postDownCmd)`
derived from the node's OS and backend.  `node` already carries the egress
flags of lines 30-32 and `gateway` the defaulted NAT flag. -/
def egressBackendCmds (node : Node) (gateway : EgressGatewayRequest) : String × String :=
  let cmds : String × String := ("", "")
  let cmds :=
    if node.OS = "linux" then
      if node.IsNFTablesPresent = "yes" then
        let postUpCmd := "nft add rule ip filter FORWARD iifname " ++ node.Interface ++ " counter accept ; "
        let postUpCmd := postUpCmd ++ ("nft add rule ip filter FORWARD oifname " ++ node.Interface ++ " counter accept ; ")
        let postDownCmd := "nft delete rule ip filter FORWARD iifname " ++ node.Interface ++ " counter accept ; "
        let postDownCmd := postDownCmd ++ ("nft delete rule ip filter FORWARD oifname " ++ node.Interface ++ " counter accept ; ")
        if node.EgressGatewayNatEnabled = "yes" then
          (postUpCmd ++ ("nft add rule ip nat POSTROUTING oifname " ++ node.Interface ++ " counter masquerade ;"),
           postDownCmd ++ ("nft delete rule ip nat POSTROUTING oifname " ++ node.Interface ++ " counter masquerade ;"))
        else (postUpCmd, postDownCmd)
      else
        let postUpCmd := "iptables -A FORWARD -i " ++ node.Interface ++ " -j ACCEPT; "
        let postUpCmd := postUpCmd ++ ("iptables -A FORWARD -o " ++ node.Interface ++ " -j ACCEPT")
        let postDownCmd := "iptables -D FORWARD -i " ++ node.Interface ++ " -j ACCEPT; "
        let postDownCmd := postDownCmd ++ ("iptables -D FORWARD -o " ++ node.Interface ++ " -j ACCEPT")
        if node.EgressGatewayNatEnabled = "yes" then
          (postUpCmd ++ ("; iptables -t nat -A POSTROUTING -o " ++ gateway.Interface ++ " -j MASQUERADE"),
           postDownCmd ++ ("; iptables -t nat -D POSTROUTING -o " ++ gateway.Interface ++ " -j MASQUERADE"))
        else (postUpCmd, postDownCmd)
    else cmds
  let cmds :=
    if node.OS = "freebsd" then
      let postUpCmd := "kldload ipfw ipfw_nat ; "
      let postUpCmd := postUpCmd ++ "ipfw disable one_pass ; "
      let postUpCmd := postUpCmd ++ ("ipfw nat 1 config if " ++ gateway.Interface ++ " same_ports unreg_only reset ; ")
      let postUpCmd := postUpCmd ++ "ipfw add 64000 reass all from any to any in ; "
      let postUpCmd := postUpCmd ++ ("ipfw add 64000 nat 1 ip from any to any in via " ++ gateway.Interface ++ " ; ")
      let postUpCmd := postUpCmd ++ "ipfw add 64000 check-state ; "
      let postUpCmd := postUpCmd ++ ("ipfw add 64000 nat 1 ip from any to any out via " ++ gateway.Interface ++ " ; ")
      let postUpCmd := postUpCmd ++ "ipfw add 65534 allow ip from any to any ; "
      let postDownCmd := "ipfw delete 64000 ; "
      let postDownCmd := postDownCmd ++ "ipfw delete 65534 ; "
      let postDownCmd := postDownCmd ++ "kldunload ipfw_nat ipfw"
      (postUpCmd, postDownCmd)
    else cmds
  cmds

/-- Lines 82-86 (and 87-91, 214-223): an existing non-empty text that does not
contain the new command is put in front of it, followed by `"; "`. -/
def mergeExisting (existing cmd : String) : String :=
  if existing ≠ "" then
    if ¬ stringsContains existing cmd then existing ++ "; " ++ cmd else cmd
  else cmd

/-- Lines 23-25 of `CreateEgressGateway`: NAT defaults to "yes" when the
request leaves it out. -/
def withDefaultNat (gateway : EgressGatewayRequest) : EgressGatewayRequest :=
  if gateway.NatEnabled = "" then { gateway with NatEnabled := "yes" } else gateway

/-- Lines 30-32 of `CreateEgressGateway`: the egress flags are set on the node. -/
def markEgress (node : Node) (gateway : EgressGatewayRequest) : Node :=
  { node with
    IsEgressGateway := "yes"
    EgressGatewayRanges := gateway.Ranges
    EgressGatewayNatEnabled := gateway.NatEnabled }

/-- Lines 33-81 of `CreateEgressGateway`: the backend text, replaced by the
request's own text where the request supplies one. -/
def egressCmds (node : Node) (gateway : EgressGatewayRequest) : String × String :=
  let cmds := egressBackendCmds node gateway
  let postUpCmd := if gateway.PostUp ≠ "" then gateway.PostUp else cmds.1
  let postDownCmd := if gateway.PostDown ≠ "" then gateway.PostDown else cmds.2
  (postUpCmd, postDownCmd)

/-- Lines 30-95 of `CreateEgressGateway`: the node as it is persisted and
returned; `gateway` carries the defaulted NAT flag and `now` is the clock read
by `SetLastModified`. -/
def applyCreateEgress (now : Int) (node : Node) (gateway : EgressGatewayRequest) : Node :=
  let node := markEgress node gateway
  let cmds := egressCmds node gateway
  let postUpCmd := mergeExisting node.PostUp cmds.1
  let postDownCmd := mergeExisting node.PostDown cmds.2
  let node := { node with PostUp := postUpCmd, PostDown := postDownCmd }
  { node with LastModified := now }

/-- `CreateEgressGateway` (lines 15-107).  `json.Marshal` of a node record
does not fail. -/
def CreateEgressGateway (env : Env) (s : Store) (gateway : EgressGatewayRequest) : Outcome :=
  match GetNodeByID env s gateway.NodeID with
  | (_, some err) => ⟨emptyNode, some err, s⟩
  | (node, none) =>
    if node.OS ≠ "linux" ∧ node.OS ≠ "freebsd" then
      ⟨emptyNode, some (node.OS ++ " is unsupported for egress gateways"), s⟩
    else
      let gateway := withDefaultNat gateway
      match ValidateEgressGateway gateway with
      | some err => ⟨emptyNode, some err, s⟩
      | none =>
        let node := applyCreateEgress env.now node gateway
        match InsertNode env s node.ID node with
        | (some err, s1) => ⟨emptyNode, some err, s1⟩
        | (none, s1) =>
          match NetworkNodesUpdatePullChanges env s1 node.Network with
          | (some err, s2) => ⟨emptyNode, some err, s2⟩
          | (none, s2) => ⟨node, none, s2⟩

/-- Lines 136-160 of `DeleteEgressGateway`: the text regenerated for a node
that is still an ingress gateway; `node` already has empty `PostUp` and
`PostDown` (lines 134-135). -/
def retainedIngressCmds (node : Node) : String × String :=
  if node.IsIngressGateway = "yes" then
    if node.OS = "linux" then
      if node.IsNFTablesPresent = "yes" then
        let postUp := "nft add rule ip filter FORWARD iifname " ++ node.Interface ++ " counter accept ; "
        let postUp := postUp ++ ("nft add rule ip filter FORWARD oifname " ++ node.Interface ++ " counter accept ; ")
        let postUp := postUp ++ ("nft add rule ip nat POSTROUTING oifname " ++ node.Interface ++ " counter masquerade ; ")
        let postDown := "nft delete rule ip filter FORWARD iifname " ++ node.Interface ++ " counter accept ;"
        let postDown := postDown ++ ("nft delete rule ip filter FORWARD iifname " ++ node.Interface ++ " counter accept ;")
        let postDown := postDown ++ ("nft delete rule ip nat POSTROUTING oifname " ++ node.Interface ++ " counter masquerade ")
        (postUp, postDown)
      else
        let postUp := "iptables -A FORWARD -i " ++ node.Interface ++ " -j ACCEPT ; "
        let postUp := postUp ++ ("iptables -A FORWARD -o " ++ node.Interface ++ " -j ACCEPT ; ")
        let postUp := postUp ++ ("iptables -t nat -A POSTROUTING -o " ++ node.Interface ++ " -j MASQUERADE")
        let postDown := "iptables -D FORWARD -i " ++ node.Interface ++ " -j ACCEPT ; "
        let postDown := postDown ++ ("iptables -D FORWARD -o " ++ node.Interface ++ " -j ACCEPT ; ")
        let postDown := postDown ++ ("iptables -t nat -D POSTROUTING -o " ++ node.Interface ++ " -j MASQUERADE")
        (postUp, postDown)
    else (node.PostUp, node.PostDown)
  else (node.PostUp, node.PostDown)

/-- Lines 132-161 of `DeleteEgressGateway`: the node as it is persisted and
returned. -/
def applyDeleteEgress (now : Int) (node : Node) : Node :=
  let node := { node with
    IsEgressGateway := "no"
    EgressGatewayRanges := []
    PostUp := ""
    PostDown := "" }
  let cmds := retainedIngressCmds node
  let node := { node with PostUp := cmds.1, PostDown := cmds.2 }
  { node with LastModified := now }

/-- `DeleteEgressGateway` (lines 125-174). -/
def DeleteEgressGateway (env : Env) (s : Store) (network nodeid : String) : Outcome :=
  match GetNodeByID env s nodeid with
  | (_, some err) => ⟨emptyNode, some err, s⟩
  | (node, none) =>
    let node := applyDeleteEgress env.now node
    match InsertNode env s node.ID node with
    | (some err, s1) => ⟨emptyNode, some err, s1⟩
    | (none, s1) =>
      match NetworkNodesUpdatePullChanges env s1 network with
      | (some err, s2) => ⟨emptyNode, some err, s2⟩
      | (none, s2) => ⟨node, none, s2⟩

/-- Lines 195-212 of `CreateIngressGateway`: the pair `(postUpCmd,
postDownCmd)` derived from the node's backend. -/
def ingressBackendCmds (node : Node) : String × String :=
  if node.IsNFTablesPresent = "yes" then
    let postUpCmd := "nft add rule ip filter FORWARD iifname " ++ node.Interface ++ " counter accept ; "
    let postUpCmd := postUpCmd ++ ("nft add rule ip filter FORWARD oifname " ++ node.Interface ++ " counter accept ; ")
    let postUpCmd := postUpCmd ++ ("nft add rule ip nat POSTROUTING oifname " ++ node.Interface ++ " counter masquerade")
    let postDownCmd := "nft delete rule ip filter FORWARD iifname " ++ node.Interface ++ " counter accept ; "
    let postDownCmd := postDownCmd ++ ("nft delete rule ip filter FORWARD oifname " ++ node.Interface ++ " counter accept ; ")
    let postDownCmd := postDownCmd ++ ("nft delete rule ip nat POSTROUTING oifname " ++ node.Interface ++ " counter masquerade")
    (postUpCmd, postDownCmd)
  else
    let postUpCmd := "iptables -A FORWARD -i " ++ node.Interface ++ " -j ACCEPT ; "
    let postUpCmd := postUpCmd ++ ("iptables -A FORWARD -o " ++ node.Interface ++ " -j ACCEPT ; ")
    let postUpCmd := postUpCmd ++ ("iptables -t nat -A POSTROUTING -o " ++ node.Interface ++ " -j MASQUERADE")
    let postDownCmd := "iptables -D FORWARD -i " ++ node.Interface ++ " -j ACCEPT ; "
    let postDownCmd := postDownCmd ++ ("iptables -D FORWARD -o " ++ node.Interface ++ " -j ACCEPT ; ")
    let postDownCmd := postDownCmd ++ ("iptables -t nat -D POSTROUTING -o " ++ node.Interface ++ " -j MASQUERADE")
    (postUpCmd, postDownCmd)

/-- Lines 193-227 of `CreateIngressGateway`: the node as it is persisted and
returned. -/
def applyCreateIngress (now : Int) (node : Node) (network : Network) : Node :=
  let node := { node with
    IsIngressGateway := "yes"
    IngressGatewayRange := network.AddressRange }
  let cmds := ingressBackendCmds node
  let postUpCmd := mergeExisting node.PostUp cmds.1
  let postDownCmd := mergeExisting node.PostDown cmds.2
  let node := { node with LastModified := now }
  { node with PostUp := postUpCmd, PostDown := postDownCmd, UDPHolePunch := "no" }

/-- `CreateIngressGateway` (lines 177-239).  The OS test of line 181 comes
before the test of the lookup error, and the last line returns the node
together with whatever `SetNetworkNodesLastModified` reported. -/
def CreateIngressGateway (env : Env) (s : Store) (netid nodeid : String) : Outcome :=
  match GetNodeByID env s nodeid with
  | (node, err) =>
    if node.OS ≠ "linux" then
      ⟨emptyNode, some (node.OS ++ " is unsupported for ingress gateways"), s⟩
    else
      match err with
      | some e => ⟨emptyNode, some e, s⟩
      | none =>
        match GetParentNetwork env s netid with
        | (_, some e) => ⟨emptyNode, some e, s⟩
        | (network, none) =>
          let node := applyCreateIngress env.now node network
          match InsertNode env s node.ID node with
          | (some e, s1) => ⟨emptyNode, some e, s1⟩
          | (none, s1) =>
            match SetNetworkNodesLastModified env s1 netid with
            | (e, s2) => ⟨node, e, s2⟩

/-- The loop of `DeleteGatewayExtClients` (lines 328-335): a failed deletion
is logged and the loop goes on. -/
def deleteOwnedExtClients (env : Env) (gatewayID networkName : String) :
    List ExtClient → Store → Store
  | [], s => s
  | extClient :: rest, s =>
    if extClient.IngressGatewayID = gatewayID then
      match DeleteExtClient env s networkName extClient.ClientID with
      | (some _, s1) => deleteOwnedExtClients env gatewayID networkName rest s1
      | (none, s1) => deleteOwnedExtClients env gatewayID networkName rest s1
    else deleteOwnedExtClients env gatewayID networkName rest s

/-- `DeleteGatewayExtClients` (lines 323-337). -/
def DeleteGatewayExtClients (env : Env) (s : Store) (gatewayID networkName : String) :
    Option Error × Store :=
  match GetNetworkExtClients env s networkName with
  | (currentExtClients, err) =>
    if err ≠ none ∧ ¬ IsEmptyRecord err then (err, s)
    else (none, deleteOwnedExtClients env gatewayID networkName currentExtClients s)

/-- Lines 263-308 of `DeleteIngressGateway`: the text regenerated for a node
that is still an egress gateway; otherwise the node's text is left as it is. -/
def retainedEgressCmds (node : Node) : String × String :=
  if node.IsEgressGateway = "yes" then
    let cmds : String × String := (node.PostUp, node.PostDown)
    let cmds :=
      if node.OS = "linux" then
        if node.IsNFTablesPresent = "yes" then
          let postUp := "nft add rule ip filter FORWARD iifname " ++ node.Interface ++ " counter accept ; "
          let postUp := postUp ++ ("nft add rule ip filter FORWARD oifname " ++ node.Interface ++ " counter accept ; ")
          let postDown := "nft delete rule ip filter FORWARD iifname " ++ node.Interface ++ " counter accept ; "
          let postDown := postDown ++ ("nft delete rule ip filter FORWARD oifname " ++ node.Interface ++ " counter accept ; ")
          if node.EgressGatewayNatEnabled = "yes" then
            (postUp ++ ("nft add rule ip nat POSTROUTING oifname " ++ node.Interface ++ " counter masquerade ;"),
             postDown ++ ("nft delete rule ip nat POSTROUTING oifname " ++ node.Interface ++ " counter masquerade ;"))
          else (postUp, postDown)
        else
          let postUp := "iptables -A FORWARD -i " ++ node.Interface ++ " -j ACCEPT; "
          let postUp := postUp ++ ("iptables -A FORWARD -o " ++ node.Interface ++ " -j ACCEPT")
          let postDown := "iptables -D FORWARD -i " ++ node.Interface ++ " -j ACCEPT; "
          let postDown := postDown ++ ("iptables -D FORWARD -o " ++ node.Interface ++ " -j ACCEPT")
          if node.EgressGatewayNatEnabled = "yes" then
            (postUp ++ ("; iptables -t nat -A POSTROUTING -o " ++ node.Interface ++ " -j MASQUERADE"),
             postDown ++ ("; iptables -t nat -D POSTROUTING -o " ++ node.Interface ++ " -j MASQUERADE"))
          else (postUp, postDown)
      else cmds
    let cmds :=
      if node.OS = "freebsd" then
        let postUp := "kldload ipfw ipfw_nat ; "
        let postUp := postUp ++ "ipfw disable one_pass ; "
        let postUp := postUp ++ ("ipfw nat 1 config if " ++ node.Interface ++ " same_ports unreg_only reset ; ")
        let postUp := postUp ++ "ipfw add 64000 reass all from any to any in ; "
        let postUp := postUp ++ ("ipfw add 64000 nat 1 ip from any to any in via " ++ node.Interface ++ " ; ")
        let postUp := postUp ++ "ipfw add 64000 check-state ; "
        let postUp := postUp ++ ("ipfw add 64000 nat 1 ip from any to any out via " ++ node.Interface ++ " ; ")
        let postUp := postUp ++ "ipfw add 65534 allow ip from any to any ; "
        let postDown := "ipfw delete 64000 ; "
        let postDown := postDown ++ "ipfw delete 65534 ; "
        let postDown := postDown ++ "kldunload ipfw_nat ipfw"
        (postUp, postDown)
      else cmds
    cmds
  else (node.PostUp, node.PostDown)

/-- Lines 258-308 of `DeleteIngressGateway`: the node as it is persisted and
returned; `now` is `time.Now().Unix()`. -/
def applyDeleteIngress (now : Int) (node : Node) (network : Network) : Node :=
  let node := { node with
    UDPHolePunch := network.DefaultUDPHolePunch
    LastModified := now
    IsIngressGateway := "no"
    IngressGatewayRange := "" }
  let cmds := retainedEgressCmds node
  { node with PostUp := cmds.1, PostDown := cmds.2 }

/-- `DeleteIngressGateway` (lines 242-320). -/
def DeleteIngressGateway (env : Env) (s : Store) (networkName nodeid : String) : Outcome :=
  match GetNodeByID env s nodeid with
  | (_, some err) => ⟨emptyNode, some err, s⟩
  | (node, none) =>
    match GetParentNetwork env s networkName with
    | (_, some err) => ⟨emptyNode, some err, s⟩
    | (network, none) =>
      match DeleteGatewayExtClients env s node.ID networkName with
      | (some err, s1) => ⟨emptyNode, some err, s1⟩
      | (none, s1) =>
        let node := applyDeleteIngress env.now node network
        match InsertNode env s1 node.ID node with
        | (some err, s2) => ⟨emptyNode, some err, s2⟩
        | (none, s2) =>
          match SetNetworkNodesLastModified env s2 networkName with
          | (err, s3) => ⟨node, err, s3⟩

/-! ## Example data -/

/-- An environment in which every collaborator succeeds. -/
def quietEnv : Env :=
  { now := 1700000000, lookupErr := none, networkErr := none, insertErr := none,
    pullErr := none, lastModifiedErr := none, listErr := none, deleteErr := fun _ => none }

/-- The network of the examples; its default hole-punch policy is "yes". -/
def meshNetwork : Network :=
  { NetID := "mesh", AddressRange := "10.20.0.0/16", DefaultUDPHolePunch := "yes" }

/-- A stored node whose OS supports no gateway role. -/
def darwinNode : Node :=
  { emptyNode with ID := "node-d", Network := "mesh", OS := "darwin", Interface := "nm-mesh" }

/-- A store holding `darwinNode`. -/
def darwinStore : Store :=
  { nodes := [("node-d", darwinNode)], networks := [meshNetwork], extclients := [],
    revisions := [] }

/-- An otherwise valid egress request for `darwinNode`. -/
def darwinRequest : EgressGatewayRequest :=
  { NodeID := "node-d", NetID := "mesh", NatEnabled := "yes", Ranges := ["192.168.0.0/24"],
    Interface := "eth0", PostUp := "", PostDown := "" }

/-- A linux node without nftables that holds both gateway roles. -/
def bothNode : Node :=
  { ID := "node-b", Network := "mesh", OS := "linux", Interface := "nm-mesh",
    IsEgressGateway := "yes", EgressGatewayRanges := ["192.168.0.0/24"],
    EgressGatewayNatEnabled := "yes", IsIngressGateway := "yes",
    IngressGatewayRange := "10.20.0.0/16", IsNFTablesPresent := "no",
    PostUp := "iptables -A FORWARD -i nm-mesh -j ACCEPT ; iptables -A FORWARD -o nm-mesh -j ACCEPT ; iptables -t nat -A POSTROUTING -o nm-mesh -j MASQUERADE; iptables -A FORWARD -i nm-mesh -j ACCEPT; iptables -A FORWARD -o nm-mesh -j ACCEPT; iptables -t nat -A POSTROUTING -o nm-mesh -j MASQUERADE",
    PostDown := "iptables -D FORWARD -i nm-mesh -j ACCEPT ; iptables -D FORWARD -o nm-mesh -j ACCEPT ; iptables -t nat -D POSTROUTING -o nm-mesh -j MASQUERADE; iptables -D FORWARD -i nm-mesh -j ACCEPT; iptables -D FORWARD -o nm-mesh -j ACCEPT; iptables -t nat -D POSTROUTING -o nm-mesh -j MASQUERADE",
    UDPHolePunch := "no", LastModified := 1690000000 }

/-- A store holding `bothNode`. -/
def bothStore : Store :=
  { nodes := [("node-b", bothNode)], networks := [meshNetwork], extclients := [],
    revisions := [] }

/-- The nftables twin of `bothNode`. -/
def bothNftNode : Node :=
  { bothNode with
    ID := "node-n", IsNFTablesPresent := "yes",
    PostUp := "", PostDown := "" }

/-- A store holding `bothNftNode`. -/
def bothNftStore : Store :=
  { nodes := [("node-n", bothNftNode)], networks := [meshNetwork], extclients := [],
    revisions := [] }

/-- A store holding `bothNftNode` before it took the ingress role. -/
def plainNftStore : Store :=
  { nodes := [("node-n", { bothNftNode with IsIngressGateway := "no", IngressGatewayRange := "" })],
    networks := [meshNetwork], extclients := [], revisions := [] }

/-- A linux node without nftables and without a gateway role that already
carries activation and deactivation text of its own. -/
def tunedNode : Node :=
  { ID := "node-t", Network := "mesh", OS := "linux", Interface := "nm-mesh",
    IsEgressGateway := "no", EgressGatewayRanges := [], EgressGatewayNatEnabled := "",
    IsIngressGateway := "no", IngressGatewayRange := "", IsNFTablesPresent := "no",
    PostUp := "sysctl -w net.ipv4.ip_forward=1", PostDown := "sysctl -w net.ipv4.ip_forward=0",
    UDPHolePunch := "yes", LastModified := 1690000000 }

/-- A store holding `tunedNode`. -/
def tunedStore : Store :=
  { nodes := [("node-t", tunedNode)], networks := [meshNetwork], extclients := [],
    revisions := [] }

/-- An egress request for `tunedNode` that supplies its own text. -/
def customRequest : EgressGatewayRequest :=
  { NodeID := "node-t", NetID := "mesh", NatEnabled := "yes", Ranges := ["192.168.0.0/24"],
    Interface := "eth0", PostUp := "custom-up", PostDown := "custom-down" }

/-- A linux node without nftables, without a gateway role and without text. -/
def plainNode : Node :=
  { tunedNode with ID := "node-p", PostUp := "", PostDown := "" }

/-- A store holding `plainNode`. -/
def plainStore : Store :=
  { nodes := [("node-p", plainNode)], networks := [meshNetwork], extclients := [],
    revisions := [] }

/-- The request of `customRequest`, addressed to `plainNode`. -/
def plainCustomRequest : EgressGatewayRequest :=
  { customRequest with NodeID := "node-p" }
/-- A valid egress request for `tunedNode` without text of its own. -/
def tunedRequest : EgressGatewayRequest :=
  { NodeID := "node-t", NetID := "mesh", NatEnabled := "yes", Ranges := ["192.168.0.0/24"],
    Interface := "eth0", PostUp := "", PostDown := "" }
/-- A freebsd node without a gateway role and without text. -/
def bsdNode : Node :=
  { ID := "node-f", Network := "mesh", OS := "freebsd", Interface := "nm-mesh",
    IsEgressGateway := "no", EgressGatewayRanges := [], EgressGatewayNatEnabled := "",
    IsIngressGateway := "no", IngressGatewayRange := "", IsNFTablesPresent := "no",
    PostUp := "", PostDown := "", UDPHolePunch := "yes", LastModified := 1690000000 }

/-- A store holding `bsdNode`. -/
def bsdStore : Store :=
  { nodes := [("node-f", bsdNode)], networks := [meshNetwork], extclients := [],
    revisions := [] }

/-- A valid egress request for `bsdNode` with NAT switched off. -/
def bsdNoNatRequest : EgressGatewayRequest :=
  { NodeID := "node-f", NetID := "mesh", NatEnabled := "no", Ranges := ["192.168.0.0/24"],
    Interface := "em0", PostUp := "", PostDown := "" }

/-- A linux node without nftables whose interface is named "nat0". -/
def natIfNode : Node :=
  { plainNode with ID := "node-i", Interface := "nat0" }

/-- A store holding `natIfNode`. -/
def natIfStore : Store :=
  { nodes := [("node-i", natIfNode)], networks := [meshNetwork], extclients := [],
    revisions := [] }

/-- A valid egress request for `natIfNode` with NAT switched off. -/
def natIfNoNatRequest : EgressGatewayRequest :=
  { NodeID := "node-i", NetID := "mesh", NatEnabled := "no", Ranges := ["192.168.0.0/24"],
    Interface := "eth0", PostUp := "", PostDown := "" }

/-- A valid egress request for `plainNode` with NAT switched off. -/
def plainNoNatRequest : EgressGatewayRequest :=
  { NodeID := "node-p", NetID := "mesh", NatEnabled := "no", Ranges := ["192.168.0.0/24"],
    Interface := "eth0", PostUp := "", PostDown := "" }
/-- A linux node with nftables, without a gateway role and without text. -/
def nftNode : Node :=
  { plainNode with ID := "node-q", IsNFTablesPresent := "yes" }

/-- A store holding `nftNode`. -/
def nftStore : Store :=
  { nodes := [("node-q", nftNode)], networks := [meshNetwork], extclients := [],
    revisions := [] }

/-- A valid egress request for `nftNode` that leaves the NAT flag out. -/
def nftRequest : EgressGatewayRequest :=
  { NodeID := "node-q", NetID := "mesh", NatEnabled := "", Ranges := ["192.168.0.0/24"],
    Interface := "eth0", PostUp := "", PostDown := "" }

/-- A valid egress request for `plainNode` with NAT on; its interface is not
the node's. -/
def plainRequest : EgressGatewayRequest :=
  { NodeID := "node-p", NetID := "mesh", NatEnabled := "yes", Ranges := ["192.168.0.0/24"],
    Interface := "eth0", PostUp := "", PostDown := "" }
/-- Three external clients attached to gateway "node-g" on "mesh", one attached
to another gateway on "mesh", and one on another network. -/
def meshClients : List ExtClient :=
  [ { ClientID := "phone", Network := "mesh", IngressGatewayID := "node-g" },
    { ClientID := "laptop", Network := "mesh", IngressGatewayID := "node-g" },
    { ClientID := "tablet", Network := "mesh", IngressGatewayID := "node-h" },
    { ClientID := "camera", Network := "mesh", IngressGatewayID := "node-g" },
    { ClientID := "phone", Network := "lab", IngressGatewayID := "node-g" } ]

/-- A linux ingress gateway, the owner of three of the `meshClients`. -/
def gatewayNode : Node :=
  { ID := "node-g", Network := "mesh", OS := "linux", Interface := "nm-mesh",
    IsEgressGateway := "no", EgressGatewayRanges := [], EgressGatewayNatEnabled := "",
    IsIngressGateway := "yes", IngressGatewayRange := "10.20.0.0/16",
    IsNFTablesPresent := "no",
    PostUp := "iptables -A FORWARD -i nm-mesh -j ACCEPT ; iptables -A FORWARD -o nm-mesh -j ACCEPT ; iptables -t nat -A POSTROUTING -o nm-mesh -j MASQUERADE",
    PostDown := "iptables -D FORWARD -i nm-mesh -j ACCEPT ; iptables -D FORWARD -o nm-mesh -j ACCEPT ; iptables -t nat -D POSTROUTING -o nm-mesh -j MASQUERADE",
    UDPHolePunch := "no", LastModified := 1690000000 }

/-- A store holding `gatewayNode` and `meshClients`. -/
def clientStore : Store :=
  { nodes := [("node-g", gatewayNode)], networks := [meshNetwork], extclients := meshClients,
    revisions := [] }

/-- An environment in which only the deletion of client "laptop" fails. -/
def laptopFailsEnv : Env :=
  { quietEnv with deleteErr := fun id => if id = "laptop" then some "database is locked" else none }

/-- An environment in which the enumeration of external clients fails. -/
def listFailsEnv : Env :=
  { quietEnv with listErr := some "database is locked" }
/-- An environment in which only `NetworkNodesUpdatePullChanges` fails. -/
def pullFailsEnv : Env :=
  { quietEnv with pullErr := some "connection refused" }

/-- An environment in which only `SetNetworkNodesLastModified` fails. -/
def lastModifiedFailsEnv : Env :=
  { quietEnv with lastModifiedErr := some "connection refused" }

/-- An environment in which only `database.Insert` fails. -/
def insertFailsEnv : Env :=
  { quietEnv with insertErr := some "database is locked" }
/-! ## Properties of nodes -/

/-- Two node records agree on the fields that are not gateway-related: ID,
Network, OS, Interface and IsNFTablesPresent. -/
abbrev sameIdentity (a b : Node) : Prop :=
  a.ID = b.ID ∧ a.Network = b.Network ∧ a.OS = b.OS ∧ a.Interface = b.Interface ∧
    a.IsNFTablesPresent = b.IsNFTablesPresent

/-- Two node records agree on the ingress fields and the hole-punch policy. -/
abbrev sameIngress (a b : Node) : Prop :=
  a.IsIngressGateway = b.IsIngressGateway ∧ a.IngressGatewayRange = b.IngressGatewayRange ∧
    a.UDPHolePunch = b.UDPHolePunch

/-- Two node records agree on the egress fields. -/
abbrev sameEgress (a b : Node) : Prop :=
  a.IsEgressGateway = b.IsEgressGateway ∧ a.EgressGatewayRanges = b.EgressGatewayRanges ∧
    a.EgressGatewayNatEnabled = b.EgressGatewayNatEnabled
/-- Go's `strings.ReplaceAll` over characters, for a non-empty `old`: scanning
from the left, every occurrence of `old` that does not overlap an earlier one
is replaced by `new`.  The number says how many characters of a replaced
occurrence are still to be skipped. -/
def replaceChars (old new : List Char) : List Char → Nat → List Char
  | [], _ => []
  | _ :: cs, skip + 1 => replaceChars old new cs skip
  | c :: cs, 0 =>
    if old.isPrefixOf (c :: cs) ∧ old ≠ [] then new ++ replaceChars old new cs (old.length - 1)
    else c :: replaceChars old new cs 0

/-- The text `s` with every occurrence of `old` replaced by `new`. -/
def replaceAll (s old new : String) : String :=
  ⟨replaceChars old.data new.data s.data 0⟩

/-- A store holding `tunedNode` as a first `CreateEgressGateway` with
`tunedRequest` leaves it: its text is the node's own text, "; " and the egress
rules. -/
def mergedStore : Store :=
  (CreateEgressGateway quietEnv tunedStore tunedRequest).store
/-- A valid egress request for `plainNode` that names the node's own
interface, with NAT on. -/
def sameIfRequest : EgressGatewayRequest :=
  { NodeID := "node-p", NetID := "mesh", NatEnabled := "yes", Ranges := ["192.168.0.0/24"],
    Interface := "nm-mesh", PostUp := "", PostDown := "" }

/-- A valid egress request for `nftNode` that names the node's own interface,
with NAT off. -/
def nftNoNatRequest : EgressGatewayRequest :=
  { NodeID := "node-q", NetID := "mesh", NatEnabled := "no", Ranges := ["192.168.0.0/24"],
    Interface := "nm-mesh", PostUp := "", PostDown := "" }
/-- A store holding `bothNode` without its text. -/
def clearedBothStore : Store :=
  { nodes := [("node-b", { bothNode with PostUp := "", PostDown := "" })],
    networks := [meshNetwork], extclients := [], revisions := [] }

/-- A valid egress request for `bothNode` with the node's NAT flag and the
node's interface. -/
def bothRequest : EgressGatewayRequest :=
  { NodeID := "node-b", NetID := "mesh", NatEnabled := "yes", Ranges := ["192.168.0.0/24"],
    Interface := "nm-mesh", PostUp := "", PostDown := "" }
/-- The pieces of a text between its semicolons, as in Go's
`strings.Split(s, ";")`: the commands of a command line. -/
def splitSemicolon : List Char → List (List Char)
  | [] => [[]]
  | c :: cs =>
    if c = ';' then [] :: splitSemicolon cs
    else
      match splitSemicolon cs with
      | [] => [[c]]
      | w :: ws => (c :: w) :: ws

/-- The commands of a command line: the pieces between its semicolons. -/
def commands (s : String) : List String :=
  (splitSemicolon s.data).map String.mk

/-- A command whose first word, after leading blanks, is `iptables`. -/
def isIptablesCommand (c : String) : Bool :=
  "iptables ".data.isPrefixOf (c.data.dropWhile (fun x => x == ' '))

/-- The activation text of the ipfw row of the table in section 6 of the spec,
for interface `ifc`. -/
def specIpfwActivation (ifc : String) : String :=
  "kldload ipfw ipfw_nat ; ipfw disable one_pass ; ipfw nat 1 config if " ++ ifc ++
    " same_ports unreg_only reset ; ipfw add 64000 reass all from any to any in ; ipfw add 64000 nat 1 ip from any to any in via " ++
    ifc ++
    " ; ipfw add 64000 check-state ; ipfw add 64000 nat 1 ip from any to any out via " ++
    ifc ++ " ; ipfw add 65534 allow ip from any to any ;"

/-- The deactivation text of the ipfw row of the table in section 6 of the
spec. -/
def specIpfwDeactivation : String :=
  "ipfw delete 64000 ; ipfw delete 65534 ; kldunload ipfw_nat ipfw"

/-- A linux node without nftables whose interface name holds a semicolon. -/
def semicolonNode : Node :=
  { plainNode with ID := "node-s", Interface := "wg0;reboot" }

/-- A store holding `semicolonNode`. -/
def semicolonStore : Store :=
  { nodes := [("node-s", semicolonNode)], networks := [meshNetwork], extclients := [],
    revisions := [] }

/-- A valid egress request for `semicolonNode` with NAT off. -/
def semicolonRequest : EgressGatewayRequest :=
  { NodeID := "node-s", NetID := "mesh", NatEnabled := "no", Ranges := ["192.168.0.0/24"],
    Interface := "eth0", PostUp := "", PostDown := "" }

/-- A valid egress request for `bsdNode` with NAT on, for interface "em0". -/
def bsdRequest : EgressGatewayRequest :=
  { NodeID := "node-f", NetID := "mesh", NatEnabled := "yes", Ranges := ["192.168.0.0/24"],
    Interface := "em0", PostUp := "", PostDown := "" }

/-- The request of `customRequest`, addressed to `nftNode`, for another
interface and with NAT off. -/
def nftCustomRequest : EgressGatewayRequest :=
  { customRequest with NodeID := "node-q", Interface := "eth1", NatEnabled := "no" }

/-! ## Theorems -/

/-! ## Substring search -/

theorem containsChars_iff (s sub : List Char) :
    containsChars s sub = true ↔ sub <:+: s := by
  induction s with
  | nil => simp [containsChars, List.isEmpty_iff]
  | cons c cs ih =>
    simp only [containsChars, Bool.or_eq_true, ih, List.infix_cons_iff,
      List.isPrefixOf_iff_prefix]

theorem containsChars_self (l : List Char) : containsChars l l = true :=
  (containsChars_iff l l).2 (List.infix_refl l)

theorem containsChars_append_right (a l : List Char) : containsChars (a ++ l) l = true :=
  (containsChars_iff _ _).2 (List.infix_append' a l [] |> fun h => by simpa using h)

theorem stringsContains_self (s : String) : stringsContains s s = true :=
  containsChars_self s.data

theorem stringsContains_append_right (a s : String) : stringsContains (a ++ s) s = true := by
  simp [stringsContains, String.data_append, containsChars_append_right]

theorem countChars_short (s sub : List Char) (h : s.length < sub.length) :
    countChars s sub = 0 := by
  induction s with
  | nil =>
    cases sub with
    | nil => simp at h
    | cons a t => simp [countChars]
  | cons c cs ih =>
    have h1 : cs.length < sub.length := by simp at h; omega
    have h2 : ¬ sub <+: c :: cs := fun hp => by
      have := hp.length_le
      omega
    simp [countChars, ih h1, List.isPrefixOf_iff_prefix, h2]

theorem countChars_self (l : List Char) : countChars l l = 1 := by
  cases l with
  | nil => simp [countChars]
  | cons c cs =>
    have h := countChars_short cs (c :: cs) (by simp)
    simp [countChars, h]

theorem occurrences_self (s : String) : occurrences s s = 1 :=
  countChars_self s.data

/-! ## Validation and unsupported systems -/

/-- C1: `ValidateEgressGateway` returns an error exactly when the range list is
empty or the interface name is empty, and the error it returns does not depend
on `NodeID`, `NetID`, `NatEnabled`, `PostUp` or `PostDown`. -/
theorem ValidateEgressGateway_error_iff (gateway : EgressGatewayRequest) :
    (ValidateEgressGateway gateway ≠ none ↔
      gateway.Ranges = [] ∨ gateway.Interface = "") ∧
    ∀ nodeID netID natEnabled postUp postDown : String,
      ValidateEgressGateway
          { gateway with
            NodeID := nodeID, NetID := netID, NatEnabled := natEnabled,
            PostUp := postUp, PostDown := postDown } =
        ValidateEgressGateway gateway := by
  refine ⟨?_, fun _ _ _ _ _ => rfl⟩
  unfold ValidateEgressGateway
  by_cases hi : gateway.Interface = ""
  · simp [hi]
  · by_cases hr : gateway.Ranges = []
    · simp [hi, hr]
    · simp [hi, hr]

theorem ValidateEgressGateway_withDefaultNat (gateway : EgressGatewayRequest) :
    ValidateEgressGateway (withDefaultNat gateway) = ValidateEgressGateway gateway := by
  unfold withDefaultNat
  split <;> rfl

/-- C2: for a stored node whose OS is neither "linux" nor "freebsd",
`CreateEgressGateway` returns the unsupported-OS error and leaves the store as
it was; for a stored node whose OS is not "linux", so does
`CreateIngressGateway`. -/
theorem unsupported_os_rejected :
    (∀ (env : Env) (s : Store) (gateway : EgressGatewayRequest) (node : Node),
      GetNodeByID env s gateway.NodeID = (node, none) →
      node.OS ≠ "linux" → node.OS ≠ "freebsd" →
      (CreateEgressGateway env s gateway).err =
          some (node.OS ++ " is unsupported for egress gateways") ∧
        (CreateEgressGateway env s gateway).store = s) ∧
    (∀ (env : Env) (s : Store) (netid nodeid : String) (node : Node),
      GetNodeByID env s nodeid = (node, none) →
      node.OS ≠ "linux" →
      (CreateIngressGateway env s netid nodeid).err =
          some (node.OS ++ " is unsupported for ingress gateways") ∧
        (CreateIngressGateway env s netid nodeid).store = s) := by
  constructor
  · intro env s gateway node hget h1 h2
    simp [CreateEgressGateway, hget, h1, h2]
  · intro env s netid nodeid node hget h1
    simp [CreateIngressGateway, hget, h1]

theorem unsupported_os_rejected_witness :
    ((CreateEgressGateway quietEnv darwinStore darwinRequest).err =
        some "darwin is unsupported for egress gateways" ∧
      (CreateEgressGateway quietEnv darwinStore darwinRequest).store = darwinStore) ∧
    ((CreateIngressGateway quietEnv darwinStore "mesh" "node-d").err =
        some "darwin is unsupported for ingress gateways" ∧
      (CreateIngressGateway quietEnv darwinStore "mesh" "node-d").store = darwinStore) :=
  ⟨unsupported_os_rejected.1 quietEnv darwinStore darwinRequest darwinNode rfl
      (by decide) (by decide),
    unsupported_os_rejected.2 quietEnv darwinStore "mesh" "node-d" darwinNode rfl (by decide)⟩

/-! ## The operations when every collaborator succeeds -/

theorem CreateEgressGateway_success (env : Env) (s : Store) (gateway : EgressGatewayRequest)
    (node : Node) (hget : GetNodeByID env s gateway.NodeID = (node, none))
    (hos : node.OS = "linux" ∨ node.OS = "freebsd")
    (hvalid : ValidateEgressGateway gateway = none)
    (hins : env.insertErr = none) (hpull : env.pullErr = none) :
    CreateEgressGateway env s gateway =
      ⟨applyCreateEgress env.now node (withDefaultNat gateway), none,
        withRevision (withNode s (applyCreateEgress env.now node (withDefaultNat gateway)))
          (applyCreateEgress env.now node (withDefaultNat gateway)).Network⟩ := by
  have hos' : ¬ (node.OS ≠ "linux" ∧ node.OS ≠ "freebsd") := by
    rcases hos with h | h <;> simp [h]
  have hv := ValidateEgressGateway_withDefaultNat gateway
  rw [hvalid] at hv
  unfold CreateEgressGateway
  rw [hget]
  simp only [hos', if_false, hv, InsertNode, hins, NetworkNodesUpdatePullChanges, hpull,
    withNode, withRevision]

theorem DeleteEgressGateway_success (env : Env) (s : Store) (network nodeid : String)
    (node : Node) (hget : GetNodeByID env s nodeid = (node, none))
    (hins : env.insertErr = none) (hpull : env.pullErr = none) :
    DeleteEgressGateway env s network nodeid =
      ⟨applyDeleteEgress env.now node, none,
        withRevision (withNode s (applyDeleteEgress env.now node)) network⟩ := by
  unfold DeleteEgressGateway
  rw [hget]
  simp only [InsertNode, hins, NetworkNodesUpdatePullChanges, hpull, withNode, withRevision]

theorem CreateIngressGateway_success (env : Env) (s : Store) (netid nodeid : String)
    (node : Node) (network : Network) (hget : GetNodeByID env s nodeid = (node, none))
    (hos : node.OS = "linux") (hnet : GetParentNetwork env s netid = (network, none))
    (hins : env.insertErr = none) :
    CreateIngressGateway env s netid nodeid =
      ⟨applyCreateIngress env.now node network, env.lastModifiedErr,
        (SetNetworkNodesLastModified env
          (withNode s (applyCreateIngress env.now node network)) netid).2⟩ := by
  unfold CreateIngressGateway
  rw [hget]
  simp only [hos, ne_eq, not_true_eq_false, if_false, hnet, InsertNode, hins, withNode]
  unfold SetNetworkNodesLastModified
  cases env.lastModifiedErr <;> rfl

theorem DeleteGatewayExtClients_fst (env : Env) (s : Store) (gatewayID networkName : String)
    (hlist : env.listErr = none ∨ IsEmptyRecord env.listErr = true) :
    (DeleteGatewayExtClients env s gatewayID networkName).1 = none := by
  unfold DeleteGatewayExtClients GetNetworkExtClients
  rcases hlist with h | h
  · simp [h]
  · cases hl : env.listErr with
    | none => simp
    | some e => rw [hl] at h; simp [h]

theorem DeleteIngressGateway_success (env : Env) (s : Store) (networkName nodeid : String)
    (node : Node) (network : Network) (hget : GetNodeByID env s nodeid = (node, none))
    (hnet : GetParentNetwork env s networkName = (network, none))
    (hlist : env.listErr = none ∨ IsEmptyRecord env.listErr = true)
    (hins : env.insertErr = none) :
    DeleteIngressGateway env s networkName nodeid =
      ⟨applyDeleteIngress env.now node network, env.lastModifiedErr,
        (SetNetworkNodesLastModified env
          (withNode (DeleteGatewayExtClients env s node.ID networkName).2
            (applyDeleteIngress env.now node network)) networkName).2⟩ := by
  have h1 := DeleteGatewayExtClients_fst env s node.ID networkName hlist
  unfold DeleteIngressGateway
  rw [hget]
  simp only [hnet]
  generalize DeleteGatewayExtClients env s node.ID networkName = r at h1 ⊢
  obtain ⟨e, s1⟩ := r
  simp only at h1
  subst h1
  simp only [InsertNode, hins, withNode]
  unfold SetNetworkNodesLastModified
  cases env.lastModifiedErr <;> rfl

/-! ## Deleting one role while the other is held -/

/-- C3: evaluation at `bothNode`, a linux node holding both roles.  After
`DeleteEgressGateway` and then `DeleteIngressGateway` the node holds no gateway
role, yet `PostUp` and `PostDown` still carry the ingress rules that
`DeleteEgressGateway` regenerated: `DeleteIngressGateway` clears nothing. -/
theorem deleteEgress_then_deleteIngress_keeps_rules :
    (DeleteEgressGateway quietEnv bothStore "mesh" "node-b").err = none ∧
    (DeleteIngressGateway quietEnv
        (DeleteEgressGateway quietEnv bothStore "mesh" "node-b").store "mesh" "node-b").err
      = none ∧
    (DeleteIngressGateway quietEnv
        (DeleteEgressGateway quietEnv bothStore "mesh" "node-b").store "mesh" "node-b").node
      = { bothNode with
          IsEgressGateway := "no", EgressGatewayRanges := [], IsIngressGateway := "no",
          IngressGatewayRange := "", UDPHolePunch := "yes", LastModified := 1700000000,
          PostUp := "iptables -A FORWARD -i nm-mesh -j ACCEPT ; iptables -A FORWARD -o nm-mesh -j ACCEPT ; iptables -t nat -A POSTROUTING -o nm-mesh -j MASQUERADE",
          PostDown := "iptables -D FORWARD -i nm-mesh -j ACCEPT ; iptables -D FORWARD -o nm-mesh -j ACCEPT ; iptables -t nat -D POSTROUTING -o nm-mesh -j MASQUERADE" } ∧
    (DeleteIngressGateway quietEnv
        (DeleteEgressGateway quietEnv bothStore "mesh" "node-b").store "mesh" "node-b").node.PostUp
      ≠ "" ∧
    (DeleteIngressGateway quietEnv
        (DeleteEgressGateway quietEnv bothStore "mesh" "node-b").store "mesh" "node-b").node.PostDown
      ≠ "" :=
  ⟨rfl, rfl, rfl, by decide, by decide⟩

/-- C4: evaluation at `bothNftNode`, a linux node with nftables holding both
roles.  The `PostUp` that `DeleteEgressGateway` regenerates ends in an extra
" ; " and its `PostDown` repeats the `iifname` rule, has no `oifname` rule and
lacks the blanks after ";", so neither equals the text `CreateIngressGateway`
composes for the same node. -/
theorem deleteEgress_nftables_differs_from_ingress :
    (DeleteEgressGateway quietEnv bothNftStore "mesh" "node-n").err = none ∧
    (CreateIngressGateway quietEnv plainNftStore "mesh" "node-n").err = none ∧
    (DeleteEgressGateway quietEnv bothNftStore "mesh" "node-n").node.PostUp =
      "nft add rule ip filter FORWARD iifname nm-mesh counter accept ; nft add rule ip filter FORWARD oifname nm-mesh counter accept ; nft add rule ip nat POSTROUTING oifname nm-mesh counter masquerade ; " ∧
    (CreateIngressGateway quietEnv plainNftStore "mesh" "node-n").node.PostUp =
      "nft add rule ip filter FORWARD iifname nm-mesh counter accept ; nft add rule ip filter FORWARD oifname nm-mesh counter accept ; nft add rule ip nat POSTROUTING oifname nm-mesh counter masquerade" ∧
    (DeleteEgressGateway quietEnv bothNftStore "mesh" "node-n").node.PostDown =
      "nft delete rule ip filter FORWARD iifname nm-mesh counter accept ;nft delete rule ip filter FORWARD iifname nm-mesh counter accept ;nft delete rule ip nat POSTROUTING oifname nm-mesh counter masquerade " ∧
    (CreateIngressGateway quietEnv plainNftStore "mesh" "node-n").node.PostDown =
      "nft delete rule ip filter FORWARD iifname nm-mesh counter accept ; nft delete rule ip filter FORWARD oifname nm-mesh counter accept ; nft delete rule ip nat POSTROUTING oifname nm-mesh counter masquerade" ∧
    (DeleteEgressGateway quietEnv bothNftStore "mesh" "node-n").node.PostUp ≠
      (CreateIngressGateway quietEnv plainNftStore "mesh" "node-n").node.PostUp ∧
    (DeleteEgressGateway quietEnv bothNftStore "mesh" "node-n").node.PostDown ≠
      (CreateIngressGateway quietEnv plainNftStore "mesh" "node-n").node.PostDown ∧
    stringsContains (DeleteEgressGateway quietEnv bothNftStore "mesh" "node-n").node.PostDown
      "nft delete rule ip filter FORWARD oifname nm-mesh counter accept" = false := by
  refine ⟨rfl, rfl, rfl, rfl, rfl, rfl, ?_, ?_, rfl⟩ <;> decide

/-- On the iptables backend the text `DeleteEgressGateway` regenerates for a
retained ingress role is the text `CreateIngressGateway` composes. -/
theorem applyDeleteEgress_iptables_eq_ingress (now : Int) (node : Node) (network : Network)
    (hos : node.OS = "linux") (hin : node.IsIngressGateway = "yes")
    (hnft : node.IsNFTablesPresent ≠ "yes") :
    (applyDeleteEgress now node).PostUp =
        (applyCreateIngress now { node with PostUp := "", PostDown := "" } network).PostUp ∧
    (applyDeleteEgress now node).PostDown =
        (applyCreateIngress now { node with PostUp := "", PostDown := "" } network).PostDown := by
  simp [applyDeleteEgress, applyCreateIngress, retainedIngressCmds, ingressBackendCmds,
    mergeExisting, hos, hin, hnft]

/-! ## Lookups after a write -/

theorem GetNodeByID_withNode (env : Env) (s : Store) (node : Node) (network : String)
    (h : env.lookupErr = none) :
    GetNodeByID env (withRevision (withNode s node) network) node.ID = (node, none) := by
  simp [GetNodeByID, h, withNode, withRevision, List.lookup]

/-! ## Merging with the text a node already has -/

theorem mergeExisting_empty (cmd : String) : mergeExisting "" cmd = cmd := by
  simp [mergeExisting]

theorem mergeExisting_eq (existing cmd : String) :
    mergeExisting existing cmd =
      if existing = "" ∨ stringsContains existing cmd = true then cmd
      else existing ++ "; " ++ cmd := by
  unfold mergeExisting
  by_cases h : existing = ""
  · simp [h]
  · by_cases hc : stringsContains existing cmd = true
    · simp [h, hc]
    · simp [h, hc]

theorem mergeExisting_idem (existing cmd : String) :
    mergeExisting (mergeExisting existing cmd) cmd = cmd := by
  have hself : mergeExisting cmd cmd = cmd := by
    rw [mergeExisting_eq]; simp [stringsContains_self]
  rw [mergeExisting_eq existing cmd]
  split
  · exact hself
  · rw [mergeExisting_eq]
    simp [stringsContains_append_right]

/-! ## Creating the egress role -/

/-- C5 (as amended): for a stored node with a supported OS and a valid request,
`CreateEgressGateway` succeeds, and a non-empty `PostUp` override becomes the
node's `PostUp` as it is when the node's existing `PostUp` is empty or already
contains it, and otherwise follows the existing `PostUp` and "; ".  The text
derived from the backend is not used: every successful call on a node with the
same existing `PostUp`, for a request with the same override, returns the same
`PostUp`, whatever the OS, the backend flag, the interfaces and the NAT flag.
Likewise `PostDown`. -/
theorem CreateEgressGateway_override (env : Env) (s : Store) (gateway : EgressGatewayRequest)
    (node : Node) (hget : GetNodeByID env s gateway.NodeID = (node, none))
    (hos : node.OS = "linux" ∨ node.OS = "freebsd")
    (hvalid : ValidateEgressGateway gateway = none)
    (hins : env.insertErr = none) (hpull : env.pullErr = none) :
    (CreateEgressGateway env s gateway).err = none ∧
    (gateway.PostUp ≠ "" →
      (CreateEgressGateway env s gateway).node.PostUp =
        if node.PostUp = "" ∨ stringsContains node.PostUp gateway.PostUp = true
        then gateway.PostUp else node.PostUp ++ "; " ++ gateway.PostUp) ∧
    (gateway.PostDown ≠ "" →
      (CreateEgressGateway env s gateway).node.PostDown =
        if node.PostDown = "" ∨ stringsContains node.PostDown gateway.PostDown = true
        then gateway.PostDown else node.PostDown ++ "; " ++ gateway.PostDown) ∧
    (∀ (env2 : Env) (s2 : Store) (gateway2 : EgressGatewayRequest) (node2 : Node),
      GetNodeByID env2 s2 gateway2.NodeID = (node2, none) →
      (node2.OS = "linux" ∨ node2.OS = "freebsd") →
      ValidateEgressGateway gateway2 = none →
      env2.insertErr = none → env2.pullErr = none →
      (gateway.PostUp ≠ "" → node2.PostUp = node.PostUp → gateway2.PostUp = gateway.PostUp →
        (CreateEgressGateway env2 s2 gateway2).node.PostUp =
          (CreateEgressGateway env s gateway).node.PostUp) ∧
      (gateway.PostDown ≠ "" → node2.PostDown = node.PostDown →
        gateway2.PostDown = gateway.PostDown →
        (CreateEgressGateway env2 s2 gateway2).node.PostDown =
          (CreateEgressGateway env s gateway).node.PostDown)) := by
  have key : ∀ (env : Env) (s : Store) (gateway : EgressGatewayRequest) (node : Node),
      GetNodeByID env s gateway.NodeID = (node, none) →
      (node.OS = "linux" ∨ node.OS = "freebsd") →
      ValidateEgressGateway gateway = none →
      env.insertErr = none → env.pullErr = none →
      (CreateEgressGateway env s gateway).err = none ∧
      (gateway.PostUp ≠ "" →
        (CreateEgressGateway env s gateway).node.PostUp =
          if node.PostUp = "" ∨ stringsContains node.PostUp gateway.PostUp = true
          then gateway.PostUp else node.PostUp ++ "; " ++ gateway.PostUp) ∧
      (gateway.PostDown ≠ "" →
        (CreateEgressGateway env s gateway).node.PostDown =
          if node.PostDown = "" ∨ stringsContains node.PostDown gateway.PostDown = true
          then gateway.PostDown else node.PostDown ++ "; " ++ gateway.PostDown) := by
    intro env s gateway node hget hos hvalid hins hpull
    rw [CreateEgressGateway_success env s gateway node hget hos hvalid hins hpull]
    have hup : (withDefaultNat gateway).PostUp = gateway.PostUp := by
      unfold withDefaultNat; split <;> rfl
    have hdown : (withDefaultNat gateway).PostDown = gateway.PostDown := by
      unfold withDefaultNat; split <;> rfl
    refine ⟨rfl, fun h => ?_, fun h => ?_⟩
    · simp only [applyCreateEgress, egressCmds, markEgress, hup, h, ne_eq, not_false_eq_true,
        if_true, mergeExisting_eq]
    · simp only [applyCreateEgress, egressCmds, markEgress, hdown, h, ne_eq, not_false_eq_true,
        if_true, mergeExisting_eq]
  obtain ⟨h0, h1, h2⟩ := key env s gateway node hget hos hvalid hins hpull
  refine ⟨h0, h1, h2, ?_⟩
  intro env2 s2 gateway2 node2 hget2 hos2 hvalid2 hins2 hpull2
  obtain ⟨-, k1, k2⟩ := key env2 s2 gateway2 node2 hget2 hos2 hvalid2 hins2 hpull2
  refine ⟨fun hne hn hg => ?_, fun hne hn hg => ?_⟩
  · rw [k1 (hg ▸ hne), h1 hne, hn, hg]
  · rw [k2 (hg ▸ hne), h2 hne, hn, hg]

theorem CreateEgressGateway_override_witness :
    (CreateEgressGateway quietEnv plainStore plainCustomRequest).err = none ∧
    (CreateEgressGateway quietEnv plainStore plainCustomRequest).node.PostUp = "custom-up" ∧
    (CreateEgressGateway quietEnv plainStore plainCustomRequest).node.PostDown = "custom-down" ∧
    (CreateEgressGateway quietEnv nftStore nftCustomRequest).node.PostUp =
      (CreateEgressGateway quietEnv plainStore plainCustomRequest).node.PostUp ∧
    (CreateEgressGateway quietEnv bsdStore { bsdNoNatRequest with PostDown := "custom-down" }
        ).node.PostDown =
      (CreateEgressGateway quietEnv plainStore plainCustomRequest).node.PostDown :=
  have h := CreateEgressGateway_override quietEnv plainStore plainCustomRequest plainNode rfl
    (Or.inl rfl) rfl rfl rfl
  ⟨h.1, (h.2.1 (by decide)).trans rfl, (h.2.2.1 (by decide)).trans rfl,
    (h.2.2.2 quietEnv nftStore nftCustomRequest nftNode rfl (Or.inl rfl) rfl rfl rfl).1
      (by decide) rfl rfl,
    (h.2.2.2 quietEnv bsdStore { bsdNoNatRequest with PostDown := "custom-down" } bsdNode rfl
      (Or.inr rfl) rfl rfl rfl).2 (by decide) rfl rfl⟩

/-- C5 (as stated) fails at `tunedNode`: the node's existing text does not
contain the override, so the override is appended to it. -/
theorem CreateEgressGateway_override_appended :
    (CreateEgressGateway quietEnv tunedStore customRequest).err = none ∧
    (CreateEgressGateway quietEnv tunedStore customRequest).node.PostUp =
      "sysctl -w net.ipv4.ip_forward=1; custom-up" ∧
    (CreateEgressGateway quietEnv tunedStore customRequest).node.PostDown =
      "sysctl -w net.ipv4.ip_forward=0; custom-down" ∧
    (CreateEgressGateway quietEnv tunedStore customRequest).node.PostUp ≠
      customRequest.PostUp ∧
    (CreateEgressGateway quietEnv tunedStore customRequest).node.PostDown ≠
      customRequest.PostDown := by
  refine ⟨rfl, rfl, rfl, ?_, ?_⟩ <;> decide

/-- C6: for a stored node with a supported OS and a valid request, calling
`CreateEgressGateway` a second time with the same request, on the store the
first call left, succeeds and yields `PostUp` and `PostDown` equal to the
command strings composed for the request, so that each occurs exactly once in
it; when the node started without text the second call's text is the first
call's text. -/
theorem CreateEgressGateway_twice (env1 env2 : Env) (s : Store)
    (gateway : EgressGatewayRequest) (node : Node)
    (hget : GetNodeByID env1 s gateway.NodeID = (node, none))
    (hid : node.ID = gateway.NodeID)
    (hos : node.OS = "linux" ∨ node.OS = "freebsd")
    (hvalid : ValidateEgressGateway gateway = none)
    (hins1 : env1.insertErr = none) (hpull1 : env1.pullErr = none)
    (hlookup2 : env2.lookupErr = none)
    (hins2 : env2.insertErr = none) (hpull2 : env2.pullErr = none) :
    (CreateEgressGateway env1 s gateway).err = none ∧
    (CreateEgressGateway env2 (CreateEgressGateway env1 s gateway).store gateway).err = none ∧
    (CreateEgressGateway env2 (CreateEgressGateway env1 s gateway).store gateway).node.PostUp =
      (egressCmds (markEgress node (withDefaultNat gateway)) (withDefaultNat gateway)).1 ∧
    (CreateEgressGateway env2 (CreateEgressGateway env1 s gateway).store gateway).node.PostDown =
      (egressCmds (markEgress node (withDefaultNat gateway)) (withDefaultNat gateway)).2 ∧
    occurrences
      (CreateEgressGateway env2 (CreateEgressGateway env1 s gateway).store gateway).node.PostUp
      (egressCmds (markEgress node (withDefaultNat gateway)) (withDefaultNat gateway)).1 = 1 ∧
    occurrences
      (CreateEgressGateway env2 (CreateEgressGateway env1 s gateway).store gateway).node.PostDown
      (egressCmds (markEgress node (withDefaultNat gateway)) (withDefaultNat gateway)).2 = 1 ∧
    (node.PostUp = "" →
      (CreateEgressGateway env2 (CreateEgressGateway env1 s gateway).store gateway).node.PostUp =
        (CreateEgressGateway env1 s gateway).node.PostUp) ∧
    (node.PostDown = "" →
      (CreateEgressGateway env2 (CreateEgressGateway env1 s gateway).store gateway).node.PostDown =
        (CreateEgressGateway env1 s gateway).node.PostDown) := by
  have e1 := CreateEgressGateway_success env1 s gateway node hget hos hvalid hins1 hpull1
  have hid1 : (applyCreateEgress env1.now node (withDefaultNat gateway)).ID = gateway.NodeID :=
    hid
  have hget2 : GetNodeByID env2 (CreateEgressGateway env1 s gateway).store gateway.NodeID =
      (applyCreateEgress env1.now node (withDefaultNat gateway), none) := by
    rw [e1, ← hid1]
    exact GetNodeByID_withNode env2 s _ _ hlookup2
  have e2 := CreateEgressGateway_success env2 (CreateEgressGateway env1 s gateway).store gateway
    (applyCreateEgress env1.now node (withDefaultNat gateway)) hget2 hos hvalid hins2 hpull2
  have hup : (applyCreateEgress env2.now (applyCreateEgress env1.now node (withDefaultNat gateway))
      (withDefaultNat gateway)).PostUp =
      (egressCmds (markEgress node (withDefaultNat gateway)) (withDefaultNat gateway)).1 :=
    mergeExisting_idem node.PostUp _
  have hdown : (applyCreateEgress env2.now
      (applyCreateEgress env1.now node (withDefaultNat gateway))
      (withDefaultNat gateway)).PostDown =
      (egressCmds (markEgress node (withDefaultNat gateway)) (withDefaultNat gateway)).2 :=
    mergeExisting_idem node.PostDown _
  rw [e2]
  refine ⟨by rw [e1], rfl, hup, hdown, ?_, ?_, fun h => ?_, fun h => ?_⟩
  · show occurrences (applyCreateEgress _ _ _).PostUp _ = 1
    rw [hup, occurrences_self]
  · show occurrences (applyCreateEgress _ _ _).PostDown _ = 1
    rw [hdown, occurrences_self]
  · rw [e1]
    show (applyCreateEgress _ _ _).PostUp = mergeExisting node.PostUp _
    rw [hup, h, mergeExisting_empty]
  · rw [e1]
    show (applyCreateEgress _ _ _).PostDown = mergeExisting node.PostDown _
    rw [hdown, h, mergeExisting_empty]

theorem CreateEgressGateway_twice_witness :
    (CreateEgressGateway quietEnv
        (CreateEgressGateway quietEnv tunedStore tunedRequest).store tunedRequest).err = none ∧
    occurrences
      (CreateEgressGateway quietEnv
        (CreateEgressGateway quietEnv tunedStore tunedRequest).store tunedRequest).node.PostUp
      "iptables -A FORWARD -i nm-mesh -j ACCEPT; iptables -A FORWARD -o nm-mesh -j ACCEPT; iptables -t nat -A POSTROUTING -o eth0 -j MASQUERADE"
      = 1 ∧
    occurrences
      (CreateEgressGateway quietEnv
        (CreateEgressGateway quietEnv tunedStore tunedRequest).store tunedRequest).node.PostDown
      "iptables -D FORWARD -i nm-mesh -j ACCEPT; iptables -D FORWARD -o nm-mesh -j ACCEPT; iptables -t nat -D POSTROUTING -o eth0 -j MASQUERADE"
      = 1 :=
  have h := CreateEgressGateway_twice quietEnv quietEnv tunedStore tunedRequest tunedNode rfl rfl
    (Or.inl rfl) rfl rfl rfl rfl rfl rfl
  ⟨h.2.1, h.2.2.2.2.1, h.2.2.2.2.2.1⟩
/-! ## Words that cannot straddle a blank -/

theorem infix_sep_iff (a b sub : List Char) (c : Char) (hc : c ∉ sub) :
    sub <:+: a ++ c :: b ↔ sub <:+: a ∨ sub <:+: b := by
  constructor
  · rintro ⟨p, q, h⟩
    rcases List.append_eq_append_iff.1 h with ⟨a', ha, -⟩ | ⟨c', hpc, hcb⟩
    · exact Or.inl ⟨p, a', ha.symm⟩
    · cases c' with
      | nil =>
        left
        refine ⟨p, [], ?_⟩
        simpa using hpc
      | cons d c'' =>
        simp only [List.cons_append, List.cons.injEq] at hcb
        obtain ⟨rfl, hb⟩ := hcb
        rcases List.append_eq_append_iff.1 hpc with ⟨a', -, hsub⟩ | ⟨e, -, hce⟩
        · exact absurd (by rw [hsub]; simp) hc
        · cases e with
          | nil =>
            simp only [List.nil_append] at hce
            exact absurd (by rw [← hce]; simp) hc
          | cons d e' =>
            simp only [List.cons_append, List.cons.injEq] at hce
            right
            refine ⟨e', q, ?_⟩
            rw [hb, hce.2]
  · rintro (h | h)
    · exact h.trans (List.infix_append' [] a (c :: b) |> fun h => by simpa using h)
    · exact h.trans ⟨a ++ [c], [], by simp⟩

theorem containsChars_append_false (x y sub : List Char) (hsp : ' ' ∉ sub)
    (hb : x.getLast? = some ' ' ∨ y.head? = some ' ')
    (hx : containsChars x sub = false) (hy : containsChars y sub = false) :
    containsChars (x ++ y) sub = false := by
  rw [Bool.eq_false_iff, ne_eq, containsChars_iff] at hx hy ⊢
  rcases hb with hb | hb
  · obtain ⟨x', rfl⟩ : ∃ x', x = x' ++ [' '] := by
      rcases List.eq_nil_or_concat x with h | ⟨l, d, h⟩
      · simp [h] at hb
      · subst h
        simp at hb
        exact ⟨l, by rw [hb]; simp⟩
    rw [List.append_assoc, List.singleton_append, infix_sep_iff _ _ _ _ hsp]
    rintro (h | h)
    · exact hx (h.trans ⟨[], [' '], by simp⟩)
    · exact hy h
  · obtain ⟨y', rfl⟩ : ∃ y', y = ' ' :: y' := by
      cases y with
      | nil => simp at hb
      | cons d y' => simp at hb; exact ⟨y', by rw [hb]⟩
    rw [infix_sep_iff _ _ _ _ hsp]
    rintro (h | h)
    · exact hx h
    · exact hy (h.trans ⟨[' '], [], by simp⟩)

theorem stringsContains_template_false (A C1 B C2 ifc w : String) (hsp : ' ' ∉ w.data)
    (hA : A.data.getLast? = some ' ') (hC1 : C1.data.head? = some ' ')
    (hC1l : C1.data.getLast? = some ' ') (hB : B.data.getLast? = some ' ')
    (hC2 : C2.data.head? = some ' ')
    (hi : stringsContains ifc w = false)
    (wA : stringsContains A w = false) (wC1 : stringsContains C1 w = false)
    (wB : stringsContains B w = false) (wC2 : stringsContains C2 w = false) :
    stringsContains (A ++ ifc ++ C1 ++ (B ++ ifc ++ C2)) w = false := by
  unfold stringsContains at *
  simp only [String.data_append]
  have h1 := containsChars_append_false _ _ _ hsp (Or.inr hC2) hi wC2
  have h2 := containsChars_append_false _ _ _ hsp (Or.inl hB) wB h1
  have h3 := containsChars_append_false _ _ _ hsp (Or.inl hC1l) wC1 h2
  have hhead : (C1.data ++ (B.data ++ (ifc.data ++ C2.data))).head? = some ' ' := by
    cases hd : C1.data with
    | nil => simp [hd] at hC1
    | cons d l => simpa [hd] using hC1
  have h4 := containsChars_append_false _ _ _ hsp (Or.inr hhead) hi h3
  have h5 := containsChars_append_false _ _ _ hsp (Or.inl hA) wA h4
  simpa [List.append_assoc] using h5
/-! ## The text composed for the egress role -/

theorem applyCreateEgress_text (now : Int) (node : Node) (gateway : EgressGatewayRequest)
    (hup : gateway.PostUp = "") (hdown : gateway.PostDown = "")
    (hpu : node.PostUp = "") (hpd : node.PostDown = "") :
    (applyCreateEgress now node gateway).PostUp =
        (egressBackendCmds (markEgress node gateway) gateway).1 ∧
    (applyCreateEgress now node gateway).PostDown =
        (egressBackendCmds (markEgress node gateway) gateway).2 := by
  simp [applyCreateEgress, egressCmds, markEgress, hup, hdown, hpu, hpd, mergeExisting_empty]

theorem egressBackendCmds_linux (node : Node) (gateway : EgressGatewayRequest)
    (hos : node.OS = "linux") :
    egressBackendCmds (markEgress node gateway) gateway =
      if node.IsNFTablesPresent = "yes" then
        if gateway.NatEnabled = "yes" then
          ("nft add rule ip filter FORWARD iifname " ++ node.Interface ++ " counter accept ; " ++
              ("nft add rule ip filter FORWARD oifname " ++ node.Interface ++ " counter accept ; ") ++
              ("nft add rule ip nat POSTROUTING oifname " ++ node.Interface ++ " counter masquerade ;"),
            "nft delete rule ip filter FORWARD iifname " ++ node.Interface ++ " counter accept ; " ++
              ("nft delete rule ip filter FORWARD oifname " ++ node.Interface ++ " counter accept ; ") ++
              ("nft delete rule ip nat POSTROUTING oifname " ++ node.Interface ++ " counter masquerade ;"))
        else
          ("nft add rule ip filter FORWARD iifname " ++ node.Interface ++ " counter accept ; " ++
              ("nft add rule ip filter FORWARD oifname " ++ node.Interface ++ " counter accept ; "),
            "nft delete rule ip filter FORWARD iifname " ++ node.Interface ++ " counter accept ; " ++
              ("nft delete rule ip filter FORWARD oifname " ++ node.Interface ++ " counter accept ; "))
      else
        if gateway.NatEnabled = "yes" then
          ("iptables -A FORWARD -i " ++ node.Interface ++ " -j ACCEPT; " ++
              ("iptables -A FORWARD -o " ++ node.Interface ++ " -j ACCEPT") ++
              ("; iptables -t nat -A POSTROUTING -o " ++ gateway.Interface ++ " -j MASQUERADE"),
            "iptables -D FORWARD -i " ++ node.Interface ++ " -j ACCEPT; " ++
              ("iptables -D FORWARD -o " ++ node.Interface ++ " -j ACCEPT") ++
              ("; iptables -t nat -D POSTROUTING -o " ++ gateway.Interface ++ " -j MASQUERADE"))
        else
          ("iptables -A FORWARD -i " ++ node.Interface ++ " -j ACCEPT; " ++
              ("iptables -A FORWARD -o " ++ node.Interface ++ " -j ACCEPT"),
            "iptables -D FORWARD -i " ++ node.Interface ++ " -j ACCEPT; " ++
              ("iptables -D FORWARD -o " ++ node.Interface ++ " -j ACCEPT")) := by
  have hne : ¬ ("linux" = "freebsd") := by decide
  simp only [egressBackendCmds, markEgress, hos, hne, if_true, if_false]

theorem withDefaultNat_no (gateway : EgressGatewayRequest) (hnat : gateway.NatEnabled = "no") :
    withDefaultNat gateway = gateway := by
  have hne : ¬ ("no" = "") := by decide
  simp [withDefaultNat, hnat, hne]

/-- C7 (as amended): for a stored linux node without text whose interface name
contains none of "masquerade", "MASQUERADE" and "nat", and a valid request
with `NatEnabled = "no"` and no text of its own, `CreateEgressGateway`
succeeds and neither `PostUp` nor `PostDown` contains any of the three words,
on the nftables and on the iptables backend. -/
theorem CreateEgressGateway_linux_without_nat (env : Env) (s : Store)
    (gateway : EgressGatewayRequest) (node : Node)
    (hget : GetNodeByID env s gateway.NodeID = (node, none))
    (hos : node.OS = "linux")
    (hvalid : ValidateEgressGateway gateway = none)
    (hnat : gateway.NatEnabled = "no")
    (hup : gateway.PostUp = "") (hdown : gateway.PostDown = "")
    (hpu : node.PostUp = "") (hpd : node.PostDown = "")
    (hins : env.insertErr = none) (hpull : env.pullErr = none)
    (hif : ∀ w ∈ ["masquerade", "MASQUERADE", "nat"],
      stringsContains node.Interface w = false) :
    (CreateEgressGateway env s gateway).err = none ∧
    ∀ w ∈ ["masquerade", "MASQUERADE", "nat"],
      stringsContains (CreateEgressGateway env s gateway).node.PostUp w = false ∧
      stringsContains (CreateEgressGateway env s gateway).node.PostDown w = false := by
  rw [CreateEgressGateway_success env s gateway node hget (Or.inl hos) hvalid hins hpull,
    withDefaultNat_no gateway hnat]
  refine ⟨rfl, ?_⟩
  have htext := applyCreateEgress_text env.now node gateway hup hdown hpu hpd
  have hne : ¬ ("no" = "yes") := by decide
  simp only [htext.1, htext.2, egressBackendCmds_linux node gateway hos, hnat, hne, if_false]
  intro w hw
  have hi := hif w hw
  simp only [List.mem_cons, List.mem_singleton, List.not_mem_nil, or_false] at hw
  by_cases hnft : node.IsNFTablesPresent = "yes"
  · simp only [hnft, if_true]
    rcases hw with rfl | rfl | rfl <;>
      exact ⟨stringsContains_template_false _ _ _ _ _ _ (by decide) (by decide) (by decide)
          (by decide) (by decide) (by decide) hi (by decide) (by decide) (by decide) (by decide),
        stringsContains_template_false _ _ _ _ _ _ (by decide) (by decide) (by decide)
          (by decide) (by decide) (by decide) hi (by decide) (by decide) (by decide) (by decide)⟩
  · simp only [hnft, if_false]
    rcases hw with rfl | rfl | rfl <;>
      exact ⟨stringsContains_template_false _ _ _ _ _ _ (by decide) (by decide) (by decide)
          (by decide) (by decide) (by decide) hi (by decide) (by decide) (by decide) (by decide),
        stringsContains_template_false _ _ _ _ _ _ (by decide) (by decide) (by decide)
          (by decide) (by decide) (by decide) hi (by decide) (by decide) (by decide) (by decide)⟩

theorem CreateEgressGateway_linux_without_nat_witness :
    (CreateEgressGateway quietEnv plainStore plainNoNatRequest).err = none ∧
    stringsContains (CreateEgressGateway quietEnv plainStore plainNoNatRequest).node.PostUp
      "nat" = false ∧
    stringsContains (CreateEgressGateway quietEnv plainStore plainNoNatRequest).node.PostDown
      "MASQUERADE" = false :=
  have h := CreateEgressGateway_linux_without_nat quietEnv plainStore plainNoNatRequest plainNode
    rfl rfl rfl rfl rfl rfl rfl rfl rfl rfl (by decide)
  ⟨h.1, (h.2 "nat" (by decide)).1, (h.2 "MASQUERADE" (by decide)).2⟩

/-- C7 (as stated) fails at `bsdNode`: on freebsd the ipfw text configures NAT
whatever `NatEnabled` says.  It also fails at `natIfNode`, where the word
"nat" comes with the interface name. -/
theorem CreateEgressGateway_freebsd_nat_when_disabled :
    (CreateEgressGateway quietEnv bsdStore bsdNoNatRequest).err = none ∧
    (CreateEgressGateway quietEnv bsdStore bsdNoNatRequest).node.EgressGatewayNatEnabled = "no" ∧
    (CreateEgressGateway quietEnv bsdStore bsdNoNatRequest).node.PostUp =
      "kldload ipfw ipfw_nat ; ipfw disable one_pass ; ipfw nat 1 config if em0 same_ports unreg_only reset ; ipfw add 64000 reass all from any to any in ; ipfw add 64000 nat 1 ip from any to any in via em0 ; ipfw add 64000 check-state ; ipfw add 64000 nat 1 ip from any to any out via em0 ; ipfw add 65534 allow ip from any to any ; " ∧
    (CreateEgressGateway quietEnv bsdStore bsdNoNatRequest).node.PostDown =
      "ipfw delete 64000 ; ipfw delete 65534 ; kldunload ipfw_nat ipfw" ∧
    stringsContains (CreateEgressGateway quietEnv bsdStore bsdNoNatRequest).node.PostUp
      "nat" = true ∧
    stringsContains (CreateEgressGateway quietEnv bsdStore bsdNoNatRequest).node.PostDown
      "nat" = true ∧
    (CreateEgressGateway quietEnv natIfStore natIfNoNatRequest).err = none ∧
    (CreateEgressGateway quietEnv natIfStore natIfNoNatRequest).node.PostUp =
      "iptables -A FORWARD -i nat0 -j ACCEPT; iptables -A FORWARD -o nat0 -j ACCEPT" ∧
    stringsContains (CreateEgressGateway quietEnv natIfStore natIfNoNatRequest).node.PostUp
      "nat" = true :=
  ⟨rfl, rfl, rfl, rfl, rfl, rfl, rfl, rfl, rfl⟩
theorem withDefaultNat_NatEnabled (gateway : EgressGatewayRequest) :
    (withDefaultNat gateway).NatEnabled = "yes" ↔
      gateway.NatEnabled = "yes" ∨ gateway.NatEnabled = "" := by
  unfold withDefaultNat
  by_cases h : gateway.NatEnabled = ""
  · simp [h]
  · simp [h]

theorem withDefaultNat_fields (gateway : EgressGatewayRequest) :
    (withDefaultNat gateway).Interface = gateway.Interface ∧
    (withDefaultNat gateway).PostUp = gateway.PostUp ∧
    (withDefaultNat gateway).PostDown = gateway.PostDown ∧
    (withDefaultNat gateway).Ranges = gateway.Ranges := by
  unfold withDefaultNat
  split <;> exact ⟨rfl, rfl, rfl, rfl⟩

theorem egressBackendCmds_freebsd (node : Node) (gateway : EgressGatewayRequest)
    (hos : node.OS = "freebsd") :
    egressBackendCmds (markEgress node gateway) gateway =
      ("kldload ipfw ipfw_nat ; ipfw disable one_pass ; ipfw nat 1 config if " ++
          gateway.Interface ++
          " same_ports unreg_only reset ; ipfw add 64000 reass all from any to any in ; ipfw add 64000 nat 1 ip from any to any in via " ++
          gateway.Interface ++
          " ; ipfw add 64000 check-state ; ipfw add 64000 nat 1 ip from any to any out via " ++
          gateway.Interface ++ " ; ipfw add 65534 allow ip from any to any ; ",
        "ipfw delete 64000 ; ipfw delete 65534 ; kldunload ipfw_nat ipfw") := by
  have hne : ¬ ("freebsd" = "linux") := by decide
  simp only [egressBackendCmds, markEgress, hos, hne, if_true, if_false]
  refine Prod.ext (String.ext ?_) (String.ext ?_) <;> simp [String.data_append]

/-! ## The commands of a command line -/

theorem splitSemicolon_free (a : List Char) (h : ';' ∉ a) : splitSemicolon a = [a] := by
  induction a with
  | nil => rfl
  | cons c cs ih =>
    have hc : c ≠ ';' := fun e => h (by simp [e])
    have hcs : ';' ∉ cs := fun e => h (by simp [e])
    simp [splitSemicolon, hc, ih hcs]

theorem splitSemicolon_append (a b : List Char) (h : ';' ∉ a) :
    splitSemicolon (a ++ ';' :: b) = a :: splitSemicolon b := by
  induction a with
  | nil => simp [splitSemicolon]
  | cons c cs ih =>
    have hc : c ≠ ';' := fun e => h (by simp [e])
    have hcs : ';' ∉ cs := fun e => h (by simp [e])
    simp [splitSemicolon, hc, ih hcs]


/-- C8 (as amended): for a stored node without text and a valid request without
text of its own, `CreateEgressGateway` succeeds.  On linux with nftables
`PostUp` is the two `nft add rule ip filter FORWARD` rules on the node's
interface, followed by the `nft add rule ip nat POSTROUTING ... masquerade ;`
rule exactly when NAT is enabled (`NatEnabled` "yes" or left out).  On linux
without nftables `PostUp` is the two `iptables -A FORWARD` rules on the node's
interface, followed by the `iptables -t nat -A POSTROUTING` rule on the
request's interface exactly when NAT is enabled, and `PostDown` the same with
`-D`; when the interface names hold no semicolon, the commands of both texts
are exactly these rules and each of them is an iptables command.  On freebsd
`PostUp` is the activation text of the spec's ipfw row on the request's
interface followed by one blank, and `PostDown` is the row's deactivation
text. -/
theorem CreateEgressGateway_backend_text (env : Env) (s : Store)
    (gateway : EgressGatewayRequest) (node : Node)
    (hget : GetNodeByID env s gateway.NodeID = (node, none))
    (hos : node.OS = "linux" ∨ node.OS = "freebsd")
    (hvalid : ValidateEgressGateway gateway = none)
    (hup : gateway.PostUp = "") (hdown : gateway.PostDown = "")
    (hpu : node.PostUp = "") (hpd : node.PostDown = "")
    (hins : env.insertErr = none) (hpull : env.pullErr = none) :
    (CreateEgressGateway env s gateway).err = none ∧
    (node.OS = "linux" → node.IsNFTablesPresent = "yes" →
      (CreateEgressGateway env s gateway).node.PostUp =
        "nft add rule ip filter FORWARD iifname " ++ node.Interface ++
          " counter accept ; nft add rule ip filter FORWARD oifname " ++ node.Interface ++
          " counter accept ; " ++
          (if gateway.NatEnabled = "yes" ∨ gateway.NatEnabled = "" then
            "nft add rule ip nat POSTROUTING oifname " ++ node.Interface ++
              " counter masquerade ;"
          else "")) ∧
    (node.OS = "linux" → node.IsNFTablesPresent ≠ "yes" →
      (CreateEgressGateway env s gateway).node.PostUp =
        "iptables -A FORWARD -i " ++ node.Interface ++
          " -j ACCEPT; iptables -A FORWARD -o " ++ node.Interface ++ " -j ACCEPT" ++
          (if gateway.NatEnabled = "yes" ∨ gateway.NatEnabled = "" then
            "; iptables -t nat -A POSTROUTING -o " ++ gateway.Interface ++ " -j MASQUERADE"
          else "") ∧
      (CreateEgressGateway env s gateway).node.PostDown =
        "iptables -D FORWARD -i " ++ node.Interface ++
          " -j ACCEPT; iptables -D FORWARD -o " ++ node.Interface ++ " -j ACCEPT" ++
          (if gateway.NatEnabled = "yes" ∨ gateway.NatEnabled = "" then
            "; iptables -t nat -D POSTROUTING -o " ++ gateway.Interface ++ " -j MASQUERADE"
          else "") ∧
      (';' ∉ node.Interface.data → ';' ∉ gateway.Interface.data →
        commands (CreateEgressGateway env s gateway).node.PostUp =
          ["iptables -A FORWARD -i " ++ node.Interface ++ " -j ACCEPT",
            " iptables -A FORWARD -o " ++ node.Interface ++ " -j ACCEPT"] ++
          (if gateway.NatEnabled = "yes" ∨ gateway.NatEnabled = "" then
            [" iptables -t nat -A POSTROUTING -o " ++ gateway.Interface ++ " -j MASQUERADE"]
          else []) ∧
        commands (CreateEgressGateway env s gateway).node.PostDown =
          ["iptables -D FORWARD -i " ++ node.Interface ++ " -j ACCEPT",
            " iptables -D FORWARD -o " ++ node.Interface ++ " -j ACCEPT"] ++
          (if gateway.NatEnabled = "yes" ∨ gateway.NatEnabled = "" then
            [" iptables -t nat -D POSTROUTING -o " ++ gateway.Interface ++ " -j MASQUERADE"]
          else []) ∧
        ∀ c ∈ commands (CreateEgressGateway env s gateway).node.PostUp ++
            commands (CreateEgressGateway env s gateway).node.PostDown,
          isIptablesCommand c = true)) ∧
    (node.OS = "freebsd" →
      (CreateEgressGateway env s gateway).node.PostUp =
        specIpfwActivation gateway.Interface ++ " " ∧
      (CreateEgressGateway env s gateway).node.PostDown = specIpfwDeactivation) := by
  rw [CreateEgressGateway_success env s gateway node hget hos hvalid hins hpull]
  obtain ⟨hi, hu, hd, -⟩ := withDefaultNat_fields gateway
  have htext := applyCreateEgress_text env.now node (withDefaultNat gateway)
    (hu.trans hup) (hd.trans hdown) hpu hpd
  simp only [htext.1, htext.2]
  refine ⟨trivial, fun hl hnft => ?_, fun hl hnft => ?_, fun hf => ?_⟩
  · rw [egressBackendCmds_linux node _ hl]
    simp only [hnft, if_true, withDefaultNat_NatEnabled]
    by_cases hnat : gateway.NatEnabled = "yes" ∨ gateway.NatEnabled = ""
    · simp only [hnat, if_true]
      apply String.ext
      simp [String.data_append]
    · simp only [hnat, if_false]
      apply String.ext
      simp [String.data_append]
  · rw [egressBackendCmds_linux node _ hl]
    simp only [hnft, if_false, withDefaultNat_NatEnabled, hi]
    by_cases hnat : gateway.NatEnabled = "yes" ∨ gateway.NatEnabled = ""
    · simp only [hnat, if_true]
      have e1 : "iptables -A FORWARD -i " ++ node.Interface ++ " -j ACCEPT; " ++
          ("iptables -A FORWARD -o " ++ node.Interface ++ " -j ACCEPT") ++
          ("; iptables -t nat -A POSTROUTING -o " ++ gateway.Interface ++ " -j MASQUERADE") =
          "iptables -A FORWARD -i " ++ node.Interface ++
            " -j ACCEPT; iptables -A FORWARD -o " ++ node.Interface ++ " -j ACCEPT" ++
            ("; iptables -t nat -A POSTROUTING -o " ++ gateway.Interface ++ " -j MASQUERADE") := by
        apply String.ext
        simp [String.data_append]
      have e2 : "iptables -D FORWARD -i " ++ node.Interface ++ " -j ACCEPT; " ++
          ("iptables -D FORWARD -o " ++ node.Interface ++ " -j ACCEPT") ++
          ("; iptables -t nat -D POSTROUTING -o " ++ gateway.Interface ++ " -j MASQUERADE") =
          "iptables -D FORWARD -i " ++ node.Interface ++
            " -j ACCEPT; iptables -D FORWARD -o " ++ node.Interface ++ " -j ACCEPT" ++
            ("; iptables -t nat -D POSTROUTING -o " ++ gateway.Interface ++ " -j MASQUERADE") := by
        apply String.ext
        simp [String.data_append]
      refine ⟨e1, e2, fun hn hg => ?_⟩
      have c1 : commands ("iptables -A FORWARD -i " ++ node.Interface ++ " -j ACCEPT; " ++
          ("iptables -A FORWARD -o " ++ node.Interface ++ " -j ACCEPT") ++
          ("; iptables -t nat -A POSTROUTING -o " ++ gateway.Interface ++ " -j MASQUERADE")) =
          ["iptables -A FORWARD -i " ++ node.Interface ++ " -j ACCEPT",
            " iptables -A FORWARD -o " ++ node.Interface ++ " -j ACCEPT",
            " iptables -t nat -A POSTROUTING -o " ++ gateway.Interface ++ " -j MASQUERADE"] := by
        have e : ("iptables -A FORWARD -i " ++ node.Interface ++ " -j ACCEPT; " ++
            ("iptables -A FORWARD -o " ++ node.Interface ++ " -j ACCEPT") ++
            ("; iptables -t nat -A POSTROUTING -o " ++ gateway.Interface ++
              " -j MASQUERADE")).data =
            ("iptables -A FORWARD -i " ++ node.Interface ++ " -j ACCEPT").data ++ ';' ::
              ((" iptables -A FORWARD -o " ++ node.Interface ++ " -j ACCEPT").data ++ ';' ::
                (" iptables -t nat -A POSTROUTING -o " ++ gateway.Interface ++
                  " -j MASQUERADE").data) := by
          simp [String.data_append]
        unfold commands
        rw [e, splitSemicolon_append _ _ (by simp [String.data_append, hn]),
          splitSemicolon_append _ _ (by simp [String.data_append, hn]),
          splitSemicolon_free _ (by simp [String.data_append, hg])]
        rfl
      have c2 : commands ("iptables -D FORWARD -i " ++ node.Interface ++ " -j ACCEPT; " ++
          ("iptables -D FORWARD -o " ++ node.Interface ++ " -j ACCEPT") ++
          ("; iptables -t nat -D POSTROUTING -o " ++ gateway.Interface ++ " -j MASQUERADE")) =
          ["iptables -D FORWARD -i " ++ node.Interface ++ " -j ACCEPT",
            " iptables -D FORWARD -o " ++ node.Interface ++ " -j ACCEPT",
            " iptables -t nat -D POSTROUTING -o " ++ gateway.Interface ++ " -j MASQUERADE"] := by
        have e : ("iptables -D FORWARD -i " ++ node.Interface ++ " -j ACCEPT; " ++
            ("iptables -D FORWARD -o " ++ node.Interface ++ " -j ACCEPT") ++
            ("; iptables -t nat -D POSTROUTING -o " ++ gateway.Interface ++
              " -j MASQUERADE")).data =
            ("iptables -D FORWARD -i " ++ node.Interface ++ " -j ACCEPT").data ++ ';' ::
              ((" iptables -D FORWARD -o " ++ node.Interface ++ " -j ACCEPT").data ++ ';' ::
                (" iptables -t nat -D POSTROUTING -o " ++ gateway.Interface ++
                  " -j MASQUERADE").data) := by
          simp [String.data_append]
        unfold commands
        rw [e, splitSemicolon_append _ _ (by simp [String.data_append, hn]),
          splitSemicolon_append _ _ (by simp [String.data_append, hn]),
          splitSemicolon_free _ (by simp [String.data_append, hg])]
        rfl
      rw [c1, c2]
      refine ⟨rfl, rfl, fun c hc => ?_⟩
      simp only [List.cons_append, List.nil_append, List.mem_cons, List.mem_singleton,
        List.not_mem_nil, or_false] at hc
      rcases hc with rfl | rfl | rfl | rfl | rfl | rfl <;>
        simp [isIptablesCommand, String.data_append, List.dropWhile, List.isPrefixOf]
    · simp only [hnat, if_false]
      have e1 : "iptables -A FORWARD -i " ++ node.Interface ++ " -j ACCEPT; " ++
          ("iptables -A FORWARD -o " ++ node.Interface ++ " -j ACCEPT") =
          "iptables -A FORWARD -i " ++ node.Interface ++
            " -j ACCEPT; iptables -A FORWARD -o " ++ node.Interface ++ " -j ACCEPT" ++ "" := by
        apply String.ext
        simp [String.data_append]
      have e2 : "iptables -D FORWARD -i " ++ node.Interface ++ " -j ACCEPT; " ++
          ("iptables -D FORWARD -o " ++ node.Interface ++ " -j ACCEPT") =
          "iptables -D FORWARD -i " ++ node.Interface ++
            " -j ACCEPT; iptables -D FORWARD -o " ++ node.Interface ++ " -j ACCEPT" ++ "" := by
        apply String.ext
        simp [String.data_append]
      refine ⟨e1, e2, fun hn _ => ?_⟩
      have c1 : commands ("iptables -A FORWARD -i " ++ node.Interface ++ " -j ACCEPT; " ++
          ("iptables -A FORWARD -o " ++ node.Interface ++ " -j ACCEPT")) =
          ["iptables -A FORWARD -i " ++ node.Interface ++ " -j ACCEPT",
            " iptables -A FORWARD -o " ++ node.Interface ++ " -j ACCEPT"] := by
        have e : ("iptables -A FORWARD -i " ++ node.Interface ++ " -j ACCEPT; " ++
            ("iptables -A FORWARD -o " ++ node.Interface ++ " -j ACCEPT")).data =
            ("iptables -A FORWARD -i " ++ node.Interface ++ " -j ACCEPT").data ++ ';' ::
              (" iptables -A FORWARD -o " ++ node.Interface ++ " -j ACCEPT").data := by
          simp [String.data_append]
        unfold commands
        rw [e, splitSemicolon_append _ _ (by simp [String.data_append, hn]),
          splitSemicolon_free _ (by simp [String.data_append, hn])]
        rfl
      have c2 : commands ("iptables -D FORWARD -i " ++ node.Interface ++ " -j ACCEPT; " ++
          ("iptables -D FORWARD -o " ++ node.Interface ++ " -j ACCEPT")) =
          ["iptables -D FORWARD -i " ++ node.Interface ++ " -j ACCEPT",
            " iptables -D FORWARD -o " ++ node.Interface ++ " -j ACCEPT"] := by
        have e : ("iptables -D FORWARD -i " ++ node.Interface ++ " -j ACCEPT; " ++
            ("iptables -D FORWARD -o " ++ node.Interface ++ " -j ACCEPT")).data =
            ("iptables -D FORWARD -i " ++ node.Interface ++ " -j ACCEPT").data ++ ';' ::
              (" iptables -D FORWARD -o " ++ node.Interface ++ " -j ACCEPT").data := by
          simp [String.data_append]
        unfold commands
        rw [e, splitSemicolon_append _ _ (by simp [String.data_append, hn]),
          splitSemicolon_free _ (by simp [String.data_append, hn])]
        rfl
      rw [c1, c2]
      refine ⟨rfl, rfl, fun c hc => ?_⟩
      simp only [List.cons_append, List.nil_append, List.mem_cons, List.mem_singleton,
        List.not_mem_nil, or_false] at hc
      rcases hc with rfl | rfl | rfl | rfl <;>
        simp [isIptablesCommand, String.data_append, List.dropWhile, List.isPrefixOf]
  · rw [egressBackendCmds_freebsd node _ hf, hi]
    refine ⟨?_, rfl⟩
    apply String.ext
    simp [specIpfwActivation, String.data_append]

theorem CreateEgressGateway_backend_text_witness :
    (CreateEgressGateway quietEnv nftStore nftRequest).err = none ∧
    (CreateEgressGateway quietEnv nftStore nftRequest).node.PostUp =
      "nft add rule ip filter FORWARD iifname nm-mesh counter accept ; nft add rule ip filter FORWARD oifname nm-mesh counter accept ; nft add rule ip nat POSTROUTING oifname nm-mesh counter masquerade ;" ∧
    (CreateEgressGateway quietEnv plainStore plainRequest).node.PostUp =
      "iptables -A FORWARD -i nm-mesh -j ACCEPT; iptables -A FORWARD -o nm-mesh -j ACCEPT; iptables -t nat -A POSTROUTING -o eth0 -j MASQUERADE" ∧
    commands (CreateEgressGateway quietEnv plainStore plainRequest).node.PostUp =
      ["iptables -A FORWARD -i nm-mesh -j ACCEPT", " iptables -A FORWARD -o nm-mesh -j ACCEPT",
        " iptables -t nat -A POSTROUTING -o eth0 -j MASQUERADE"] ∧
    (∀ c ∈ commands (CreateEgressGateway quietEnv plainStore plainRequest).node.PostUp ++
        commands (CreateEgressGateway quietEnv plainStore plainRequest).node.PostDown,
      isIptablesCommand c = true) ∧
    (CreateEgressGateway quietEnv bsdStore bsdRequest).node.PostUp =
      "kldload ipfw ipfw_nat ; ipfw disable one_pass ; ipfw nat 1 config if em0 same_ports unreg_only reset ; ipfw add 64000 reass all from any to any in ; ipfw add 64000 nat 1 ip from any to any in via em0 ; ipfw add 64000 check-state ; ipfw add 64000 nat 1 ip from any to any out via em0 ; ipfw add 65534 allow ip from any to any ; " :=
  have h := CreateEgressGateway_backend_text quietEnv nftStore nftRequest nftNode rfl
    (Or.inl rfl) rfl rfl rfl rfl rfl rfl rfl
  have g := (CreateEgressGateway_backend_text quietEnv plainStore plainRequest plainNode rfl
    (Or.inl rfl) rfl rfl rfl rfl rfl rfl rfl).2.2.1 rfl (by decide)
  have b := (CreateEgressGateway_backend_text quietEnv bsdStore bsdRequest bsdNode rfl
    (Or.inr rfl) rfl rfl rfl rfl rfl rfl rfl).2.2.2 rfl
  ⟨h.1, (h.2.1 rfl (by decide)).trans rfl, g.1.trans rfl,
    (g.2.2 (by decide) (by decide)).1.trans rfl, (g.2.2 (by decide) (by decide)).2.2,
    b.1.trans rfl⟩

/-- C8 (as stated) fails at `bsdNode` with a request for interface "em0": the
ipfw text is on the request's interface, not on the node's "nm-mesh", and it
ends in a blank that the table's text does not have.  It also fails at
`semicolonNode`, where the interface name brings a command of its own into
the iptables text. -/
theorem CreateEgressGateway_freebsd_text_differs :
    (CreateEgressGateway quietEnv bsdStore bsdRequest).err = none ∧
    (CreateEgressGateway quietEnv bsdStore bsdRequest).node.Interface = "nm-mesh" ∧
    (CreateEgressGateway quietEnv bsdStore bsdRequest).node.PostUp =
      "kldload ipfw ipfw_nat ; ipfw disable one_pass ; ipfw nat 1 config if em0 same_ports unreg_only reset ; ipfw add 64000 reass all from any to any in ; ipfw add 64000 nat 1 ip from any to any in via em0 ; ipfw add 64000 check-state ; ipfw add 64000 nat 1 ip from any to any out via em0 ; ipfw add 65534 allow ip from any to any ; " ∧
    (CreateEgressGateway quietEnv bsdStore bsdRequest).node.PostUp ≠
      specIpfwActivation "nm-mesh" ∧
    (CreateEgressGateway quietEnv bsdStore bsdRequest).node.PostUp ≠
      specIpfwActivation "em0" ∧
    (CreateEgressGateway quietEnv bsdStore bsdRequest).node.PostUp =
      specIpfwActivation "em0" ++ " " ∧
    (CreateEgressGateway quietEnv semicolonStore semicolonRequest).err = none ∧
    commands (CreateEgressGateway quietEnv semicolonStore semicolonRequest).node.PostUp =
      ["iptables -A FORWARD -i wg0", "reboot -j ACCEPT", " iptables -A FORWARD -o wg0",
        "reboot -j ACCEPT"] ∧
    isIptablesCommand "reboot -j ACCEPT" = false := by
  refine ⟨rfl, rfl, rfl, ?_, ?_, rfl, rfl, rfl, rfl⟩ <;> decide

/-- C9 (as amended): for a stored linux node without nftables and without
text, and a valid request with NAT enabled and no text of its own,
`CreateEgressGateway` succeeds and `PostUp` is the two `FORWARD` rules on the
node's interface followed by the `POSTROUTING` masquerade rule on the
request's interface; `PostDown` is the same text with `-D` for `-A`.  When the
request names the node's interface all three clauses name that interface. -/
theorem CreateEgressGateway_iptables_nat_text (env : Env) (s : Store)
    (gateway : EgressGatewayRequest) (node : Node)
    (hget : GetNodeByID env s gateway.NodeID = (node, none))
    (hos : node.OS = "linux") (hnft : node.IsNFTablesPresent ≠ "yes")
    (hvalid : ValidateEgressGateway gateway = none)
    (hnat : gateway.NatEnabled = "yes" ∨ gateway.NatEnabled = "")
    (hup : gateway.PostUp = "") (hdown : gateway.PostDown = "")
    (hpu : node.PostUp = "") (hpd : node.PostDown = "")
    (hins : env.insertErr = none) (hpull : env.pullErr = none) :
    (CreateEgressGateway env s gateway).err = none ∧
    (CreateEgressGateway env s gateway).node.PostUp =
      "iptables -A FORWARD -i " ++ node.Interface ++
        " -j ACCEPT; iptables -A FORWARD -o " ++ node.Interface ++
        " -j ACCEPT; iptables -t nat -A POSTROUTING -o " ++ gateway.Interface ++
        " -j MASQUERADE" ∧
    (CreateEgressGateway env s gateway).node.PostDown =
      "iptables -D FORWARD -i " ++ node.Interface ++
        " -j ACCEPT; iptables -D FORWARD -o " ++ node.Interface ++
        " -j ACCEPT; iptables -t nat -D POSTROUTING -o " ++ gateway.Interface ++
        " -j MASQUERADE" ∧
    (gateway.Interface = node.Interface →
      (CreateEgressGateway env s gateway).node.PostUp =
        "iptables -A FORWARD -i " ++ node.Interface ++
          " -j ACCEPT; iptables -A FORWARD -o " ++ node.Interface ++
          " -j ACCEPT; iptables -t nat -A POSTROUTING -o " ++ node.Interface ++
          " -j MASQUERADE" ∧
      (CreateEgressGateway env s gateway).node.PostDown =
        "iptables -D FORWARD -i " ++ node.Interface ++
          " -j ACCEPT; iptables -D FORWARD -o " ++ node.Interface ++
          " -j ACCEPT; iptables -t nat -D POSTROUTING -o " ++ node.Interface ++
          " -j MASQUERADE") := by
  rw [CreateEgressGateway_success env s gateway node hget (Or.inl hos) hvalid hins hpull]
  obtain ⟨hi, hu, hd, -⟩ := withDefaultNat_fields gateway
  have htext := applyCreateEgress_text env.now node (withDefaultNat gateway)
    (hu.trans hup) (hd.trans hdown) hpu hpd
  have hyes := (withDefaultNat_NatEnabled gateway).2 hnat
  have h1 : (applyCreateEgress env.now node (withDefaultNat gateway)).PostUp =
      "iptables -A FORWARD -i " ++ node.Interface ++
        " -j ACCEPT; iptables -A FORWARD -o " ++ node.Interface ++
        " -j ACCEPT; iptables -t nat -A POSTROUTING -o " ++ gateway.Interface ++
        " -j MASQUERADE" := by
    rw [htext.1, egressBackendCmds_linux node _ hos]
    simp only [hnft, if_false, hyes, if_true, hi]
    apply String.ext
    simp [String.data_append]
  have h2 : (applyCreateEgress env.now node (withDefaultNat gateway)).PostDown =
      "iptables -D FORWARD -i " ++ node.Interface ++
        " -j ACCEPT; iptables -D FORWARD -o " ++ node.Interface ++
        " -j ACCEPT; iptables -t nat -D POSTROUTING -o " ++ gateway.Interface ++
        " -j MASQUERADE" := by
    rw [htext.2, egressBackendCmds_linux node _ hos]
    simp only [hnft, if_false, hyes, if_true, hi]
    apply String.ext
    simp [String.data_append]
  refine ⟨rfl, h1, h2, fun h => ?_⟩
  rw [h] at h1 h2
  exact ⟨h1, h2⟩

theorem CreateEgressGateway_iptables_nat_text_witness :
    (CreateEgressGateway quietEnv plainStore plainRequest).err = none ∧
    (CreateEgressGateway quietEnv plainStore plainRequest).node.PostUp =
      "iptables -A FORWARD -i nm-mesh -j ACCEPT; iptables -A FORWARD -o nm-mesh -j ACCEPT; iptables -t nat -A POSTROUTING -o eth0 -j MASQUERADE" ∧
    (CreateEgressGateway quietEnv plainStore plainRequest).node.PostDown =
      "iptables -D FORWARD -i nm-mesh -j ACCEPT; iptables -D FORWARD -o nm-mesh -j ACCEPT; iptables -t nat -D POSTROUTING -o eth0 -j MASQUERADE" :=
  have h := CreateEgressGateway_iptables_nat_text quietEnv plainStore plainRequest plainNode rfl
    rfl (by decide) rfl (Or.inl rfl) rfl rfl rfl rfl rfl rfl
  ⟨h.1, h.2.1.trans rfl, h.2.2.1.trans rfl⟩

/-- C9 (as stated) fails at `plainNode` with a request for interface "eth0":
the masquerade clause names the request's interface, not the node's. -/
theorem CreateEgressGateway_iptables_masquerade_interface :
    (CreateEgressGateway quietEnv plainStore plainRequest).err = none ∧
    (CreateEgressGateway quietEnv plainStore plainRequest).node.Interface = "nm-mesh" ∧
    (CreateEgressGateway quietEnv plainStore plainRequest).node.PostUp ≠
      "iptables -A FORWARD -i nm-mesh -j ACCEPT; iptables -A FORWARD -o nm-mesh -j ACCEPT; iptables -t nat -A POSTROUTING -o nm-mesh -j MASQUERADE" ∧
    (CreateEgressGateway quietEnv plainStore plainRequest).node.PostDown ≠
      "iptables -D FORWARD -i nm-mesh -j ACCEPT; iptables -D FORWARD -o nm-mesh -j ACCEPT; iptables -t nat -D POSTROUTING -o nm-mesh -j MASQUERADE" := by
  refine ⟨rfl, rfl, ?_, ?_⟩ <;> decide

/-! ## Ingress and the hole-punch policy -/

theorem GetNodeByID_after_lastModified (env env2 : Env) (s : Store) (node : Node)
    (netid : String) (h : env2.lookupErr = none) :
    GetNodeByID env2 (SetNetworkNodesLastModified env (withNode s node) netid).2 node.ID =
      (node, none) := by
  unfold SetNetworkNodesLastModified
  cases env.lastModifiedErr <;> simp [GetNodeByID, h, withNode, List.lookup]

theorem GetParentNetwork_after_lastModified (env env2 : Env) (s : Store) (node : Node)
    (netid netid2 : String) (network : Network)
    (hnet : GetParentNetwork env s netid2 = (network, none)) (h : env2.networkErr = none) :
    GetParentNetwork env2 (SetNetworkNodesLastModified env (withNode s node) netid).2 netid2 =
      (network, none) := by
  have hs : (SetNetworkNodesLastModified env (withNode s node) netid).2.networks = s.networks := by
    unfold SetNetworkNodesLastModified
    cases env.lastModifiedErr <;> rfl
  unfold GetParentNetwork at hnet ⊢
  rw [h, hs]
  cases he : env.networkErr with
  | some e => rw [he] at hnet; simp at hnet
  | none => rw [he] at hnet; exact hnet

/-- C10: for a stored linux node and a network, `CreateIngressGateway` returns
the node with `UDPHolePunch = "no"`, `IsIngressGateway = "yes"` and
`IngressGatewayRange` equal to the network's address range; a subsequent
`DeleteIngressGateway` on the store the creation left returns it with
`UDPHolePunch` equal to the network's `DefaultUDPHolePunch`,
`IsIngressGateway = "no"` and an empty `IngressGatewayRange`.  Each call
reports what `SetNetworkNodesLastModified` reported. -/
theorem ingress_holePunch (env1 env2 : Env) (s : Store) (netid nodeid : String)
    (node : Node) (network : Network)
    (hget : GetNodeByID env1 s nodeid = (node, none)) (hid : node.ID = nodeid)
    (hos : node.OS = "linux")
    (hnet : GetParentNetwork env1 s netid = (network, none))
    (hins1 : env1.insertErr = none)
    (hlookup2 : env2.lookupErr = none) (hnet2 : env2.networkErr = none)
    (hlist2 : env2.listErr = none ∨ IsEmptyRecord env2.listErr = true)
    (hins2 : env2.insertErr = none) :
    ((CreateIngressGateway env1 s netid nodeid).err = env1.lastModifiedErr ∧
      (CreateIngressGateway env1 s netid nodeid).node.UDPHolePunch = "no" ∧
      (CreateIngressGateway env1 s netid nodeid).node.IsIngressGateway = "yes" ∧
      (CreateIngressGateway env1 s netid nodeid).node.IngressGatewayRange =
        network.AddressRange) ∧
    ((DeleteIngressGateway env2 (CreateIngressGateway env1 s netid nodeid).store netid
        nodeid).err = env2.lastModifiedErr ∧
      (DeleteIngressGateway env2 (CreateIngressGateway env1 s netid nodeid).store netid
        nodeid).node.UDPHolePunch = network.DefaultUDPHolePunch ∧
      (DeleteIngressGateway env2 (CreateIngressGateway env1 s netid nodeid).store netid
        nodeid).node.IsIngressGateway = "no" ∧
      (DeleteIngressGateway env2 (CreateIngressGateway env1 s netid nodeid).store netid
        nodeid).node.IngressGatewayRange = "") := by
  have e1 := CreateIngressGateway_success env1 s netid nodeid node network hget hos hnet hins1
  have hid1 : (applyCreateIngress env1.now node network).ID = nodeid := hid
  have hget2 : GetNodeByID env2 (CreateIngressGateway env1 s netid nodeid).store nodeid =
      (applyCreateIngress env1.now node network, none) := by
    rw [e1, ← hid1]
    exact GetNodeByID_after_lastModified env1 env2 s _ netid hlookup2
  have hnet2' : GetParentNetwork env2 (CreateIngressGateway env1 s netid nodeid).store netid =
      (network, none) := by
    rw [e1]
    exact GetParentNetwork_after_lastModified env1 env2 s _ netid netid network hnet hnet2
  have e2 := DeleteIngressGateway_success env2 (CreateIngressGateway env1 s netid nodeid).store
    netid nodeid _ network hget2 hnet2' hlist2 hins2
  rw [e2]
  refine ⟨?_, rfl, rfl, rfl, rfl⟩
  rw [e1]
  exact ⟨rfl, rfl, rfl, rfl⟩

theorem ingress_holePunch_witness :
    ((CreateIngressGateway quietEnv plainStore "mesh" "node-p").err = none ∧
      (CreateIngressGateway quietEnv plainStore "mesh" "node-p").node.UDPHolePunch = "no" ∧
      (CreateIngressGateway quietEnv plainStore "mesh" "node-p").node.IsIngressGateway = "yes" ∧
      (CreateIngressGateway quietEnv plainStore "mesh" "node-p").node.IngressGatewayRange =
        "10.20.0.0/16") ∧
    ((DeleteIngressGateway quietEnv (CreateIngressGateway quietEnv plainStore "mesh"
        "node-p").store "mesh" "node-p").err = none ∧
      (DeleteIngressGateway quietEnv (CreateIngressGateway quietEnv plainStore "mesh"
        "node-p").store "mesh" "node-p").node.UDPHolePunch = "yes" ∧
      (DeleteIngressGateway quietEnv (CreateIngressGateway quietEnv plainStore "mesh"
        "node-p").store "mesh" "node-p").node.IsIngressGateway = "no" ∧
      (DeleteIngressGateway quietEnv (CreateIngressGateway quietEnv plainStore "mesh"
        "node-p").store "mesh" "node-p").node.IngressGatewayRange = "") :=
  ingress_holePunch quietEnv quietEnv plainStore "mesh" "node-p" plainNode meshNetwork rfl rfl
    rfl rfl rfl rfl rfl (Or.inl rfl) rfl
/-! ## The external client cascade -/

theorem deleteOwnedExtClients_eq (env : Env) (gatewayID networkName : String)
    (clients : List ExtClient) (s : Store) :
    deleteOwnedExtClients env gatewayID networkName clients s =
      { s with extclients := s.extclients.filter (fun c =>
          decide (¬ (c.Network = networkName ∧ ∃ x ∈ clients,
            x.IngressGatewayID = gatewayID ∧ env.deleteErr x.ClientID = none ∧
              x.ClientID = c.ClientID))) } := by
  induction clients generalizing s with
  | nil => simp [deleteOwnedExtClients]
  | cons x rest ih =>
    unfold deleteOwnedExtClients
    by_cases hown : x.IngressGatewayID = gatewayID
    · simp only [hown, if_true]
      cases hdel : env.deleteErr x.ClientID with
      | some e =>
        simp only [DeleteExtClient, hdel, ih]
        congr 1
        apply List.filter_congr
        intro c _
        simp [hdel]
      | none =>
        simp only [DeleteExtClient, hdel, ih, List.filter_filter]
        congr 1
        apply List.filter_congr
        intro c _
        by_cases hc : c.Network = networkName
        · by_cases hx : x.ClientID = c.ClientID
          · have hdel2 : env.deleteErr c.ClientID = none := hx ▸ hdel
            simp [hc, hx, hown, hdel, hdel2]
          · have hx2 : ¬ c.ClientID = x.ClientID := fun h => hx h.symm
            simp [hc, hx, hx2, hown, hdel]
        · simp [hc]
    · simp only [hown, if_false, ih]
      congr 1
      apply List.filter_congr
      intro c _
      simp [hown]

/-- C11: when the enumeration succeeds, every deletion succeeds and the client
records are keyed by client identifier and network, `DeleteGatewayExtClients`
returns no error and leaves exactly the records that are not clients of the
network owned by the gateway: no client of the network owned by the gateway
remains, and every other record is kept as it was. -/
theorem DeleteGatewayExtClients_removes_owned (env : Env) (s : Store)
    (gatewayID networkName : String)
    (hlist : env.listErr = none)
    (hdel : ∀ c ∈ s.extclients, env.deleteErr c.ClientID = none)
    (hkey : ∀ a ∈ s.extclients, ∀ b ∈ s.extclients,
      a.ClientID = b.ClientID → a.Network = b.Network → a = b) :
    DeleteGatewayExtClients env s gatewayID networkName =
        (none, { s with extclients := s.extclients.filter (fun c =>
          decide (¬ (c.Network = networkName ∧ c.IngressGatewayID = gatewayID))) }) ∧
    (∀ c ∈ (DeleteGatewayExtClients env s gatewayID networkName).2.extclients,
      ¬ (c.Network = networkName ∧ c.IngressGatewayID = gatewayID)) ∧
    (∀ c ∈ s.extclients, c.IngressGatewayID ≠ gatewayID →
      c ∈ (DeleteGatewayExtClients env s gatewayID networkName).2.extclients) := by
  have heq : DeleteGatewayExtClients env s gatewayID networkName =
      (none, { s with extclients := s.extclients.filter (fun c =>
        decide (¬ (c.Network = networkName ∧ c.IngressGatewayID = gatewayID))) }) := by
    unfold DeleteGatewayExtClients GetNetworkExtClients
    simp only [hlist, ne_eq, not_true_eq_false, false_and, if_false, deleteOwnedExtClients_eq]
    congr 2
    apply List.filter_congr
    intro c hc
    rw [decide_eq_decide]
    apply not_congr
    apply and_congr_right
    intro hn
    constructor
    · rintro ⟨x, hx, hxg, -, hxc⟩
      simp only [List.mem_filter, decide_eq_true_eq] at hx
      have := hkey x hx.1 c hc hxc (hx.2.trans hn.symm)
      exact this ▸ hxg
    · intro hg
      exact ⟨c, by simp [hc, hn], hg, hdel c hc, rfl⟩
  rw [heq]
  refine ⟨rfl, fun c hc => ?_, fun c hc hg => ?_⟩
  · simp only [List.mem_filter, decide_eq_true_eq] at hc
    exact hc.2
  · simp only [List.mem_filter, decide_eq_true_eq]
    exact ⟨hc, fun h => hg h.2⟩

theorem DeleteGatewayExtClients_removes_owned_witness :
    DeleteGatewayExtClients quietEnv clientStore "node-g" "mesh" =
      (none, { clientStore with extclients :=
        [ { ClientID := "tablet", Network := "mesh", IngressGatewayID := "node-h" },
          { ClientID := "phone", Network := "lab", IngressGatewayID := "node-g" } ] }) :=
  (DeleteGatewayExtClients_removes_owned quietEnv clientStore "node-g" "mesh" rfl
    (fun _ _ => rfl) (by decide)).1.trans rfl

/-- C12: `DeleteGatewayExtClients` returns an error exactly when the
enumeration of the network's clients fails with an error that is not the
empty-record sentinel, and then it returns that error and leaves the store as
it was; which deletions fail has no influence on the error; after a
successful enumeration every owned client whose own deletion does not fail is
gone, whichever other deletions failed; and when it returns an error
`DeleteIngressGateway` returns that error and leaves the store as it was. -/
theorem DeleteGatewayExtClients_error (env : Env) (s : Store)
    (gatewayID networkName : String) :
    ((DeleteGatewayExtClients env s gatewayID networkName).1 ≠ none ↔
      env.listErr ≠ none ∧ IsEmptyRecord env.listErr = false) ∧
    ((DeleteGatewayExtClients env s gatewayID networkName).1 ≠ none →
      (DeleteGatewayExtClients env s gatewayID networkName).1 = env.listErr ∧
      (DeleteGatewayExtClients env s gatewayID networkName).2 = s) ∧
    (∀ deleteErr : String → Option Error,
      (DeleteGatewayExtClients { env with deleteErr := deleteErr } s gatewayID networkName).1 =
        (DeleteGatewayExtClients env s gatewayID networkName).1) ∧
    (env.listErr = none → ∀ c ∈ s.extclients, c.Network = networkName →
      c.IngressGatewayID = gatewayID → env.deleteErr c.ClientID = none →
      c ∉ (DeleteGatewayExtClients env s gatewayID networkName).2.extclients) ∧
    (∀ (nodeid : String) (node : Node) (network : Network) (e : Error),
      GetNodeByID env s nodeid = (node, none) →
      GetParentNetwork env s networkName = (network, none) →
      (DeleteGatewayExtClients env s node.ID networkName).1 = some e →
      (DeleteIngressGateway env s networkName nodeid).err = some e ∧
      (DeleteIngressGateway env s networkName nodeid).store = s) := by
  have hcases : ∀ (env : Env) (gatewayID : String),
      (env.listErr ≠ none ∧ IsEmptyRecord env.listErr = false →
        DeleteGatewayExtClients env s gatewayID networkName = (env.listErr, s)) ∧
      (¬ (env.listErr ≠ none ∧ IsEmptyRecord env.listErr = false) →
        (DeleteGatewayExtClients env s gatewayID networkName).1 = none) := by
    intro env gatewayID
    unfold DeleteGatewayExtClients GetNetworkExtClients
    cases hl : env.listErr with
    | none => simp
    | some e =>
      cases hr : IsEmptyRecord (some e) with
      | true => simp [hr]
      | false => simp [hr]
  refine ⟨?_, ?_, ?_, ?_, ?_⟩
  · constructor
    · intro h
      by_contra hn
      exact h ((hcases env gatewayID).2 hn)
    · intro h
      rw [(hcases env gatewayID).1 h]
      exact h.1
  · intro h
    have hl : env.listErr ≠ none ∧ IsEmptyRecord env.listErr = false := by
      by_contra hn
      exact h ((hcases env gatewayID).2 hn)
    rw [(hcases env gatewayID).1 hl]
    exact ⟨rfl, rfl⟩
  · intro deleteErr
    by_cases hl : env.listErr ≠ none ∧ IsEmptyRecord env.listErr = false
    · rw [(hcases env gatewayID).1 hl, (hcases { env with deleteErr := deleteErr } gatewayID).1 hl]
    · rw [(hcases env gatewayID).2 hl, (hcases { env with deleteErr := deleteErr } gatewayID).2 hl]
  · intro hl c hc hn hg hd
    unfold DeleteGatewayExtClients GetNetworkExtClients
    simp only [hl, ne_eq, not_true_eq_false, false_and, if_false, deleteOwnedExtClients_eq]
    intro hmem
    simp only [List.mem_filter, decide_eq_true_eq] at hmem
    exact hmem.2 ⟨hn, c, by simp [hc, hn], hg, hd, rfl⟩
  · intro nodeid node network e hget hnet herr
    have hne : (DeleteGatewayExtClients env s node.ID networkName).1 ≠ none := by
      rw [herr]; simp
    have hl : env.listErr ≠ none ∧ IsEmptyRecord env.listErr = false := by
      by_contra hn
      exact hne ((hcases env node.ID).2 hn)
    have hfull := (hcases env node.ID).1 hl
    have he : env.listErr = some e := by
      rw [hfull] at herr
      exact herr
    unfold DeleteIngressGateway
    rw [hget]
    simp [hnet, hfull, he]

theorem DeleteGatewayExtClients_error_witness :
    (DeleteGatewayExtClients laptopFailsEnv clientStore "node-g" "mesh").1 = none ∧
    (DeleteGatewayExtClients laptopFailsEnv clientStore "node-g" "mesh").2.extclients =
      [ { ClientID := "laptop", Network := "mesh", IngressGatewayID := "node-g" },
        { ClientID := "tablet", Network := "mesh", IngressGatewayID := "node-h" },
        { ClientID := "phone", Network := "lab", IngressGatewayID := "node-g" } ] ∧
    ({ ClientID := "camera", Network := "mesh", IngressGatewayID := "node-g" } : ExtClient) ∉
      (DeleteGatewayExtClients laptopFailsEnv clientStore "node-g" "mesh").2.extclients ∧
    (DeleteIngressGateway listFailsEnv clientStore "mesh" "node-g").err =
      some "database is locked" ∧
    (DeleteIngressGateway listFailsEnv clientStore "mesh" "node-g").store = clientStore :=
  have h := DeleteGatewayExtClients_error laptopFailsEnv clientStore "node-g" "mesh"
  have g := (DeleteGatewayExtClients_error listFailsEnv clientStore "node-g" "mesh").2.2.2.2
    "node-g" gatewayNode meshNetwork "database is locked" rfl rfl rfl
  ⟨rfl, rfl,
    h.2.2.2.1 rfl { ClientID := "camera", Network := "mesh", IngressGatewayID := "node-g" }
      (by decide) rfl rfl rfl,
    g.1, g.2⟩
/-! ## How the operations can end -/

theorem CreateEgressGateway_cases (env : Env) (s : Store) (gateway : EgressGatewayRequest) :
    ((CreateEgressGateway env s gateway).err ≠ none ∧
        (CreateEgressGateway env s gateway).store = s) ∨
    ∃ node : Node, GetNodeByID env s gateway.NodeID = (node, none) ∧
      (node.OS = "linux" ∨ node.OS = "freebsd") ∧
      ValidateEgressGateway gateway = none ∧ env.insertErr = none := by
  rcases hg : GetNodeByID env s gateway.NodeID with ⟨node, _ | e⟩
  · by_cases hos : node.OS ≠ "linux" ∧ node.OS ≠ "freebsd"
    · left
      simp [CreateEgressGateway, hg, hos]
    · have hos2 : node.OS = "linux" ∨ node.OS = "freebsd" := by
        by_contra h
        exact hos ⟨fun h1 => h (Or.inl h1), fun h2 => h (Or.inr h2)⟩
      cases hv : ValidateEgressGateway gateway with
      | some e =>
        left
        have hv2 := ValidateEgressGateway_withDefaultNat gateway
        rw [hv] at hv2
        simp [CreateEgressGateway, hg, hos, hv2]
      | none =>
        cases hi : env.insertErr with
        | some e =>
          left
          have hv2 := ValidateEgressGateway_withDefaultNat gateway
          rw [hv] at hv2
          simp [CreateEgressGateway, hg, hos, hv2, InsertNode, hi]
        | none => exact Or.inr ⟨node, rfl, hos2, rfl, rfl⟩
  · left
    simp [CreateEgressGateway, hg]

theorem CreateEgressGateway_err (env : Env) (s : Store) (gateway : EgressGatewayRequest)
    (node : Node) (hget : GetNodeByID env s gateway.NodeID = (node, none))
    (hos : node.OS = "linux" ∨ node.OS = "freebsd")
    (hvalid : ValidateEgressGateway gateway = none) (hins : env.insertErr = none) :
    (CreateEgressGateway env s gateway).err = env.pullErr := by
  have hos2 : ¬ (node.OS ≠ "linux" ∧ node.OS ≠ "freebsd") := by
    rcases hos with h | h <;> simp [h]
  have hv := ValidateEgressGateway_withDefaultNat gateway
  rw [hvalid] at hv
  unfold CreateEgressGateway
  rw [hget]
  simp only [hos2, if_false, hv, InsertNode, hins, NetworkNodesUpdatePullChanges]
  cases env.pullErr <;> rfl

theorem DeleteEgressGateway_cases (env : Env) (s : Store) (network nodeid : String) :
    ((DeleteEgressGateway env s network nodeid).err ≠ none ∧
        (DeleteEgressGateway env s network nodeid).store = s) ∨
    ∃ node : Node, GetNodeByID env s nodeid = (node, none) ∧ env.insertErr = none := by
  rcases hg : GetNodeByID env s nodeid with ⟨node, _ | e⟩
  · cases hi : env.insertErr with
    | some e =>
      left
      simp [DeleteEgressGateway, hg, InsertNode, hi]
    | none => exact Or.inr ⟨node, rfl, rfl⟩
  · left
    simp [DeleteEgressGateway, hg]

theorem DeleteEgressGateway_err (env : Env) (s : Store) (network nodeid : String)
    (node : Node) (hget : GetNodeByID env s nodeid = (node, none))
    (hins : env.insertErr = none) :
    (DeleteEgressGateway env s network nodeid).err = env.pullErr := by
  unfold DeleteEgressGateway
  rw [hget]
  simp only [InsertNode, hins, NetworkNodesUpdatePullChanges]
  cases env.pullErr <;> rfl

theorem CreateIngressGateway_cases (env : Env) (s : Store) (netid nodeid : String) :
    ((CreateIngressGateway env s netid nodeid).err ≠ none ∧
        (CreateIngressGateway env s netid nodeid).store = s) ∨
    ∃ (node : Node) (network : Network), GetNodeByID env s nodeid = (node, none) ∧
      node.OS = "linux" ∧ GetParentNetwork env s netid = (network, none) ∧
      env.insertErr = none := by
  rcases hg : GetNodeByID env s nodeid with ⟨node, err⟩
  by_cases hos : node.OS = "linux"
  · cases err with
    | some e =>
      left
      simp [CreateIngressGateway, hg, hos]
    | none =>
      rcases hn : GetParentNetwork env s netid with ⟨network, _ | e⟩
      · cases hi : env.insertErr with
        | some e =>
          left
          simp [CreateIngressGateway, hg, hos, hn, InsertNode, hi]
        | none => exact Or.inr ⟨node, network, rfl, hos, rfl, rfl⟩
      · left
        simp [CreateIngressGateway, hg, hos, hn]
  · left
    simp [CreateIngressGateway, hg, hos]

theorem DeleteGatewayExtClients_snd (env : Env) (s : Store) (gatewayID networkName : String) :
    (DeleteGatewayExtClients env s gatewayID networkName).2.nodes = s.nodes ∧
    (DeleteGatewayExtClients env s gatewayID networkName).2.networks = s.networks ∧
    (DeleteGatewayExtClients env s gatewayID networkName).2.revisions = s.revisions := by
  unfold DeleteGatewayExtClients
  simp only
  split
  · exact ⟨rfl, rfl, rfl⟩
  · simp [deleteOwnedExtClients_eq]

theorem DeleteGatewayExtClients_fatal (env : Env) (s : Store) (gatewayID networkName : String)
    (h : env.listErr ≠ none ∧ IsEmptyRecord env.listErr = false) :
    DeleteGatewayExtClients env s gatewayID networkName = (env.listErr, s) := by
  unfold DeleteGatewayExtClients GetNetworkExtClients
  cases hl : env.listErr with
  | none => exact absurd hl h.1
  | some e =>
    have hr := h.2
    rw [hl] at hr
    simp [hr]

theorem DeleteGatewayExtClients_ok (env : Env) (s : Store) (gatewayID networkName : String)
    (h : (DeleteGatewayExtClients env s gatewayID networkName).1 = none) :
    env.listErr = none ∨ IsEmptyRecord env.listErr = true := by
  by_contra hn
  have hf : env.listErr ≠ none ∧ IsEmptyRecord env.listErr = false :=
    ⟨fun hl => hn (Or.inl hl), by
      cases hr : IsEmptyRecord env.listErr with
      | true => exact absurd (Or.inr hr) hn
      | false => rfl⟩
  rw [DeleteGatewayExtClients_fatal env s gatewayID networkName hf] at h
  exact hf.1 h

theorem DeleteIngressGateway_cases (env : Env) (s : Store) (networkName nodeid : String) :
    ((DeleteIngressGateway env s networkName nodeid).err ≠ none ∧
        (DeleteIngressGateway env s networkName nodeid).store = s) ∨
    (∃ node : Node, GetNodeByID env s nodeid = (node, none) ∧ env.insertErr ≠ none ∧
        (DeleteIngressGateway env s networkName nodeid).err ≠ none ∧
        (DeleteIngressGateway env s networkName nodeid).store =
          (DeleteGatewayExtClients env s node.ID networkName).2) ∨
    ∃ (node : Node) (network : Network), GetNodeByID env s nodeid = (node, none) ∧
      GetParentNetwork env s networkName = (network, none) ∧
      (env.listErr = none ∨ IsEmptyRecord env.listErr = true) ∧ env.insertErr = none := by
  rcases hg : GetNodeByID env s nodeid with ⟨node, _ | e⟩
  · rcases hn : GetParentNetwork env s networkName with ⟨network, _ | e⟩
    · rcases hd : DeleteGatewayExtClients env s node.ID networkName with ⟨_ | e, s1⟩
      · have hok := DeleteGatewayExtClients_ok env s node.ID networkName (by rw [hd])
        cases hi : env.insertErr with
        | some e =>
          right; left
          refine ⟨node, rfl, by simp, ?_, ?_⟩ <;>
            simp [DeleteIngressGateway, hg, hn, hd, InsertNode, hi]
        | none => exact Or.inr (Or.inr ⟨node, network, rfl, rfl, hok, rfl⟩)
      · left
        have hf : env.listErr ≠ none ∧ IsEmptyRecord env.listErr = false := by
          constructor
          · intro hl
            have := DeleteGatewayExtClients_fst env s node.ID networkName (Or.inl hl)
            rw [hd] at this
            simp at this
          · cases hr : IsEmptyRecord env.listErr with
            | true =>
              have := DeleteGatewayExtClients_fst env s node.ID networkName (Or.inr hr)
              rw [hd] at this
              simp at this
            | false => rfl
        have hs := DeleteGatewayExtClients_fatal env s node.ID networkName hf
        rw [hd] at hs
        have hs2 : s1 = s := congrArg Prod.snd hs
        simp [DeleteIngressGateway, hg, hn, hd, hs2]
    · left
      simp [DeleteIngressGateway, hg, hn]
  · left
    simp [DeleteIngressGateway, hg]
/-! ## Errors and the persisted state -/

/-- C13 (as amended): when change propagation does not fail, each of the four
operations that returns an error leaves the node table as it was; the whole
store, external client records included, is then as it was for
`CreateEgressGateway`, `DeleteEgressGateway` and `CreateIngressGateway`, and
for `DeleteIngressGateway` unless `database.Insert` failed after the cascade. -/
theorem error_leaves_state (env : Env) (s : Store) (gateway : EgressGatewayRequest)
    (network nodeid : String) :
    (env.pullErr = none → (CreateEgressGateway env s gateway).err ≠ none →
      (CreateEgressGateway env s gateway).store = s) ∧
    (env.pullErr = none → (DeleteEgressGateway env s network nodeid).err ≠ none →
      (DeleteEgressGateway env s network nodeid).store = s) ∧
    (env.lastModifiedErr = none → (CreateIngressGateway env s network nodeid).err ≠ none →
      (CreateIngressGateway env s network nodeid).store = s) ∧
    (env.lastModifiedErr = none → (DeleteIngressGateway env s network nodeid).err ≠ none →
      (DeleteIngressGateway env s network nodeid).store.nodes = s.nodes ∧
      (env.insertErr = none → (DeleteIngressGateway env s network nodeid).store = s)) := by
  refine ⟨fun hp he => ?_, fun hp he => ?_, fun hp he => ?_, fun hp he => ?_⟩
  · rcases CreateEgressGateway_cases env s gateway with h | ⟨node, hget, hos, hvalid, hins⟩
    · exact h.2
    · rw [CreateEgressGateway_err env s gateway node hget hos hvalid hins] at he
      exact absurd hp he
  · rcases DeleteEgressGateway_cases env s network nodeid with h | ⟨node, hget, hins⟩
    · exact h.2
    · rw [DeleteEgressGateway_err env s network nodeid node hget hins] at he
      exact absurd hp he
  · rcases CreateIngressGateway_cases env s network nodeid with
      h | ⟨node, net, hget, hos, hnet, hins⟩
    · exact h.2
    · rw [CreateIngressGateway_success env s network nodeid node net hget hos hnet hins] at he
      exact absurd hp he
  · rcases DeleteIngressGateway_cases env s network nodeid with
      h | ⟨node, hget, hins, -, hst⟩ | ⟨node, net, hget, hnet, hlist, hins⟩
    · exact ⟨by rw [h.2], fun _ => h.2⟩
    · refine ⟨?_, fun h => absurd h hins⟩
      rw [hst]
      exact (DeleteGatewayExtClients_snd env s node.ID network).1
    · rw [DeleteIngressGateway_success env s network nodeid node net hget hnet hlist hins] at he
      exact absurd hp he

theorem error_leaves_state_witness :
    (CreateEgressGateway insertFailsEnv plainStore plainRequest).err =
        some "database is locked" ∧
      (CreateEgressGateway insertFailsEnv plainStore plainRequest).store = plainStore ∧
    (DeleteIngressGateway insertFailsEnv clientStore "mesh" "node-g").err =
        some "database is locked" ∧
      (DeleteIngressGateway insertFailsEnv clientStore "mesh" "node-g").store.nodes =
        clientStore.nodes :=
  ⟨rfl,
    (error_leaves_state insertFailsEnv plainStore plainRequest "mesh" "node-p").1 rfl
      (by decide),
    rfl,
    ((error_leaves_state insertFailsEnv clientStore plainRequest "mesh" "node-g").2.2.2 rfl
      (by decide)).1⟩

/-- C13 (as stated) fails: a change propagation that fails after the node was
written makes `CreateEgressGateway`, `DeleteEgressGateway` and
`CreateIngressGateway` return an error with the new record in the node table,
and a `database.Insert` that fails after the cascade makes
`DeleteIngressGateway` return an error with the gateway's clients deleted. -/
theorem error_after_write :
    ((CreateEgressGateway pullFailsEnv plainStore plainRequest).err =
        some "connection refused" ∧
      (CreateEgressGateway pullFailsEnv plainStore plainRequest).store.nodes ≠
        plainStore.nodes) ∧
    ((DeleteEgressGateway pullFailsEnv bothStore "mesh" "node-b").err =
        some "connection refused" ∧
      (DeleteEgressGateway pullFailsEnv bothStore "mesh" "node-b").store.nodes ≠
        bothStore.nodes) ∧
    ((CreateIngressGateway lastModifiedFailsEnv plainStore "mesh" "node-p").err =
        some "connection refused" ∧
      (CreateIngressGateway lastModifiedFailsEnv plainStore "mesh" "node-p").store.nodes ≠
        plainStore.nodes) ∧
    ((DeleteIngressGateway insertFailsEnv clientStore "mesh" "node-g").err =
        some "database is locked" ∧
      (DeleteIngressGateway insertFailsEnv clientStore "mesh" "node-g").store.extclients =
        [ { ClientID := "tablet", Network := "mesh", IngressGatewayID := "node-h" },
          { ClientID := "phone", Network := "lab", IngressGatewayID := "node-g" } ] ∧
      (DeleteIngressGateway insertFailsEnv clientStore "mesh" "node-g").store.extclients ≠
        clientStore.extclients) := by
  refine ⟨⟨rfl, ?_⟩, ⟨rfl, ?_⟩, ⟨rfl, ?_⟩, ⟨rfl, rfl, ?_⟩⟩ <;> decide

/-! ## The NAT default -/

/-- C14: `CreateEgressGateway` treats a request whose `NatEnabled` is empty as
the same request with `NatEnabled = "yes"`: the two calls have the same
outcome, and when the call succeeds the returned node has
`EgressGatewayNatEnabled = "yes"`. -/
theorem CreateEgressGateway_nat_default (env : Env) (s : Store)
    (gateway : EgressGatewayRequest) :
    CreateEgressGateway env s { gateway with NatEnabled := "" } =
        CreateEgressGateway env s { gateway with NatEnabled := "yes" } ∧
    ((CreateEgressGateway env s { gateway with NatEnabled := "" }).err = none →
      (CreateEgressGateway env s { gateway with NatEnabled := "" }).node.EgressGatewayNatEnabled
        = "yes") := by
  have hd : withDefaultNat { gateway with NatEnabled := "" } =
      withDefaultNat { gateway with NatEnabled := "yes" } := by
    have hne : ¬ ("yes" = "") := by decide
    simp [withDefaultNat, hne]
  have heq : CreateEgressGateway env s { gateway with NatEnabled := "" } =
      CreateEgressGateway env s { gateway with NatEnabled := "yes" } := by
    unfold CreateEgressGateway
    simp only [hd]
  refine ⟨heq, fun he => ?_⟩
  rcases CreateEgressGateway_cases env s { gateway with NatEnabled := "" } with
    h | ⟨node, hget, hos, hvalid, hins⟩
  · exact absurd he h.1
  · have hp : env.pullErr = none := by
      rw [CreateEgressGateway_err env s _ node hget hos hvalid hins] at he
      exact he
    rw [CreateEgressGateway_success env s _ node hget hos hvalid hins hp]
    simp [applyCreateEgress, markEgress, withDefaultNat]

theorem CreateEgressGateway_nat_default_witness :
    (CreateEgressGateway quietEnv nftStore nftRequest).node.EgressGatewayNatEnabled = "yes" ∧
    (CreateEgressGateway quietEnv nftStore nftRequest).node.PostUp =
      (CreateEgressGateway quietEnv nftStore { nftRequest with NatEnabled := "yes" }).node.PostUp :=
  ⟨(CreateEgressGateway_nat_default quietEnv nftStore nftRequest).2 rfl,
    congrArg (fun o => o.node.PostUp)
      (CreateEgressGateway_nat_default quietEnv nftStore nftRequest).1⟩

/-! ## A failed lookup -/

theorem lookup_error_surfaces (env : Env) (s : Store) (gateway : EgressGatewayRequest)
    (network nodeid : String) (node : Node) (e : Error)
    (hget : GetNodeByID env s gateway.NodeID = (node, some e))
    (hget2 : GetNodeByID env s nodeid = (node, some e)) :
    (CreateEgressGateway env s gateway).err = some e ∧
    (DeleteEgressGateway env s network nodeid).err = some e ∧
    (DeleteIngressGateway env s network nodeid).err = some e := by
  simp [CreateEgressGateway, DeleteEgressGateway, DeleteIngressGateway, hget, hget2]

/-- C18: evaluation at a node identifier that is not in the store.  The lookup
fails with "no result found"; `CreateEgressGateway`, `DeleteEgressGateway` and
`DeleteIngressGateway` return that error, but `CreateIngressGateway` tests the
OS of the zero node before it tests the error and returns the unsupported-OS
error instead. -/
theorem CreateIngressGateway_masks_lookup_error :
    GetNodeByID quietEnv plainStore "node-x" = (emptyNode, some "no result found") ∧
    (CreateIngressGateway quietEnv plainStore "mesh" "node-x").err =
      some " is unsupported for ingress gateways" ∧
    (CreateIngressGateway quietEnv plainStore "mesh" "node-x").err ≠
      (GetNodeByID quietEnv plainStore "node-x").2 ∧
    (CreateEgressGateway quietEnv plainStore { plainRequest with NodeID := "node-x" }).err =
      some "no result found" ∧
    (DeleteEgressGateway quietEnv plainStore "mesh" "node-x").err = some "no result found" ∧
    (DeleteIngressGateway quietEnv plainStore "mesh" "node-x").err = some "no result found" := by
  refine ⟨rfl, rfl, ?_, rfl, rfl, rfl⟩
  decide
/-! ## What a successful call changes -/

theorem lookup_withNode (s : Store) (node : Node) :
    (withNode s node).nodes.lookup node.ID = some node := by
  simp [withNode, List.lookup]

/-- C20: a successful call of any of the four operations returns the loaded
node with ID, Network, OS, Interface and IsNFTablesPresent as they were; the
egress operations leave the ingress fields and the hole-punch policy as they
were, the ingress operations leave the egress fields as they were; and the
record in the node table under the returned node's ID is the returned node. -/
theorem operations_frame (env : Env) (s : Store) (gateway : EgressGatewayRequest)
    (network nodeid : String) :
    ((CreateEgressGateway env s gateway).err = none →
      ∃ node : Node, GetNodeByID env s gateway.NodeID = (node, none) ∧
        sameIdentity (CreateEgressGateway env s gateway).node node ∧
        sameIngress (CreateEgressGateway env s gateway).node node ∧
        (CreateEgressGateway env s gateway).store.nodes.lookup
            (CreateEgressGateway env s gateway).node.ID =
          some (CreateEgressGateway env s gateway).node) ∧
    ((DeleteEgressGateway env s network nodeid).err = none →
      ∃ node : Node, GetNodeByID env s nodeid = (node, none) ∧
        sameIdentity (DeleteEgressGateway env s network nodeid).node node ∧
        sameIngress (DeleteEgressGateway env s network nodeid).node node ∧
        (DeleteEgressGateway env s network nodeid).store.nodes.lookup
            (DeleteEgressGateway env s network nodeid).node.ID =
          some (DeleteEgressGateway env s network nodeid).node) ∧
    ((CreateIngressGateway env s network nodeid).err = none →
      ∃ node : Node, GetNodeByID env s nodeid = (node, none) ∧
        sameIdentity (CreateIngressGateway env s network nodeid).node node ∧
        sameEgress (CreateIngressGateway env s network nodeid).node node ∧
        (CreateIngressGateway env s network nodeid).store.nodes.lookup
            (CreateIngressGateway env s network nodeid).node.ID =
          some (CreateIngressGateway env s network nodeid).node) ∧
    ((DeleteIngressGateway env s network nodeid).err = none →
      ∃ node : Node, GetNodeByID env s nodeid = (node, none) ∧
        sameIdentity (DeleteIngressGateway env s network nodeid).node node ∧
        sameEgress (DeleteIngressGateway env s network nodeid).node node ∧
        (DeleteIngressGateway env s network nodeid).store.nodes.lookup
            (DeleteIngressGateway env s network nodeid).node.ID =
          some (DeleteIngressGateway env s network nodeid).node) := by
  refine ⟨fun he => ?_, fun he => ?_, fun he => ?_, fun he => ?_⟩
  · rcases CreateEgressGateway_cases env s gateway with h | ⟨node, hget, hos, hvalid, hins⟩
    · exact absurd he h.1
    · have hp : env.pullErr = none := by
        rw [CreateEgressGateway_err env s gateway node hget hos hvalid hins] at he
        exact he
      rw [CreateEgressGateway_success env s gateway node hget hos hvalid hins hp]
      exact ⟨node, hget, ⟨rfl, rfl, rfl, rfl, rfl⟩, ⟨rfl, rfl, rfl⟩, lookup_withNode s _⟩
  · rcases DeleteEgressGateway_cases env s network nodeid with h | ⟨node, hget, hins⟩
    · exact absurd he h.1
    · have hp : env.pullErr = none := by
        rw [DeleteEgressGateway_err env s network nodeid node hget hins] at he
        exact he
      rw [DeleteEgressGateway_success env s network nodeid node hget hins hp]
      exact ⟨node, hget, ⟨rfl, rfl, rfl, rfl, rfl⟩, ⟨rfl, rfl, rfl⟩, lookup_withNode s _⟩
  · rcases CreateIngressGateway_cases env s network nodeid with
      h | ⟨node, net, hget, hos, hnet, hins⟩
    · exact absurd he h.1
    · rw [CreateIngressGateway_success env s network nodeid node net hget hos hnet hins] at he ⊢
      simp only at he
      refine ⟨node, hget, ⟨rfl, rfl, rfl, rfl, rfl⟩, ⟨rfl, rfl, rfl⟩, ?_⟩
      simp only [SetNetworkNodesLastModified, he]
      exact lookup_withNode s _
  · rcases DeleteIngressGateway_cases env s network nodeid with
      h | ⟨node, -, -, h, -⟩ | ⟨node, net, hget, hnet, hlist, hins⟩
    · exact absurd he h.1
    · exact absurd he h
    · rw [DeleteIngressGateway_success env s network nodeid node net hget hnet hlist hins] at he ⊢
      simp only at he
      refine ⟨node, hget, ⟨rfl, rfl, rfl, rfl, rfl⟩, ⟨rfl, rfl, rfl⟩, ?_⟩
      simp only [SetNetworkNodesLastModified, he]
      exact lookup_withNode _ _

theorem operations_frame_witness :
    (∃ node : Node, GetNodeByID quietEnv plainStore plainRequest.NodeID = (node, none) ∧
      sameIdentity (CreateEgressGateway quietEnv plainStore plainRequest).node node ∧
      sameIngress (CreateEgressGateway quietEnv plainStore plainRequest).node node ∧
      (CreateEgressGateway quietEnv plainStore plainRequest).store.nodes.lookup
          (CreateEgressGateway quietEnv plainStore plainRequest).node.ID =
        some (CreateEgressGateway quietEnv plainStore plainRequest).node) ∧
    (∃ node : Node, GetNodeByID quietEnv clientStore "node-g" = (node, none) ∧
      sameIdentity (DeleteIngressGateway quietEnv clientStore "mesh" "node-g").node node ∧
      sameEgress (DeleteIngressGateway quietEnv clientStore "mesh" "node-g").node node ∧
      (DeleteIngressGateway quietEnv clientStore "mesh" "node-g").store.nodes.lookup
          (DeleteIngressGateway quietEnv clientStore "mesh" "node-g").node.ID =
        some (DeleteIngressGateway quietEnv clientStore "mesh" "node-g").node) :=
  ⟨(operations_frame quietEnv plainStore plainRequest "mesh" "node-p").1 rfl,
    (operations_frame quietEnv clientStore plainRequest "mesh" "node-g").2.2.2 rfl⟩
/-! ## Text that is kept and text that is dropped -/

theorem containsChars_append_left (l b : List Char) : containsChars (l ++ b) l = true :=
  (containsChars_iff _ _).2 ⟨[], b, by simp⟩

theorem stringsContains_append_left (s b : String) : stringsContains (s ++ b) s = true := by
  simp [stringsContains, String.data_append, containsChars_append_left]

theorem mergeExisting_nonempty (existing cmd : String) (h : existing ≠ "") :
    mergeExisting existing cmd =
        (if stringsContains existing cmd = true then cmd else existing ++ "; " ++ cmd) ∧
    (stringsContains existing cmd = false →
      stringsContains (mergeExisting existing cmd) existing = true) := by
  have h1 : mergeExisting existing cmd =
      (if stringsContains existing cmd = true then cmd else existing ++ "; " ++ cmd) := by
    rw [mergeExisting_eq]
    simp [h]
  refine ⟨h1, fun hc => ?_⟩
  rw [h1]
  simp only [hc, Bool.false_eq_true, if_false, String.append_assoc]
  exact stringsContains_append_left _ _

/-- C19 (as amended): for a stored node with a supported OS and non-empty
`PostUp`, the `PostUp` after a successful `CreateEgressGateway` or
`CreateIngressGateway` is the newly produced command string alone when the
existing text contains it, and the existing text followed by "; " and the new
string otherwise; in the second case the existing text is still a substring
of the result.  Likewise `PostDown`. -/
theorem creation_merges_existing_text :
    (∀ (env : Env) (s : Store) (gateway : EgressGatewayRequest) (node : Node),
      GetNodeByID env s gateway.NodeID = (node, none) →
      (node.OS = "linux" ∨ node.OS = "freebsd") →
      ValidateEgressGateway gateway = none →
      env.insertErr = none → env.pullErr = none →
      (CreateEgressGateway env s gateway).err = none ∧
      (node.PostUp ≠ "" →
        (CreateEgressGateway env s gateway).node.PostUp =
          (if stringsContains node.PostUp
              (egressCmds (markEgress node (withDefaultNat gateway)) (withDefaultNat gateway)).1
              = true
            then (egressCmds (markEgress node (withDefaultNat gateway)) (withDefaultNat gateway)).1
            else node.PostUp ++ "; " ++
              (egressCmds (markEgress node (withDefaultNat gateway)) (withDefaultNat gateway)).1) ∧
        (stringsContains node.PostUp
            (egressCmds (markEgress node (withDefaultNat gateway)) (withDefaultNat gateway)).1
            = false →
          stringsContains (CreateEgressGateway env s gateway).node.PostUp node.PostUp = true)) ∧
      (node.PostDown ≠ "" →
        (CreateEgressGateway env s gateway).node.PostDown =
          (if stringsContains node.PostDown
              (egressCmds (markEgress node (withDefaultNat gateway)) (withDefaultNat gateway)).2
              = true
            then (egressCmds (markEgress node (withDefaultNat gateway)) (withDefaultNat gateway)).2
            else node.PostDown ++ "; " ++
              (egressCmds (markEgress node (withDefaultNat gateway)) (withDefaultNat gateway)).2) ∧
        (stringsContains node.PostDown
            (egressCmds (markEgress node (withDefaultNat gateway)) (withDefaultNat gateway)).2
            = false →
          stringsContains (CreateEgressGateway env s gateway).node.PostDown node.PostDown
            = true))) ∧
    (∀ (env : Env) (s : Store) (netid nodeid : String) (node : Node) (network : Network),
      GetNodeByID env s nodeid = (node, none) →
      node.OS = "linux" →
      GetParentNetwork env s netid = (network, none) →
      env.insertErr = none → env.lastModifiedErr = none →
      (CreateIngressGateway env s netid nodeid).err = none ∧
      (node.PostUp ≠ "" →
        (CreateIngressGateway env s netid nodeid).node.PostUp =
          (if stringsContains node.PostUp (ingressBackendCmds node).1 = true
            then (ingressBackendCmds node).1
            else node.PostUp ++ "; " ++ (ingressBackendCmds node).1) ∧
        (stringsContains node.PostUp (ingressBackendCmds node).1 = false →
          stringsContains (CreateIngressGateway env s netid nodeid).node.PostUp node.PostUp
            = true)) ∧
      (node.PostDown ≠ "" →
        (CreateIngressGateway env s netid nodeid).node.PostDown =
          (if stringsContains node.PostDown (ingressBackendCmds node).2 = true
            then (ingressBackendCmds node).2
            else node.PostDown ++ "; " ++ (ingressBackendCmds node).2) ∧
        (stringsContains node.PostDown (ingressBackendCmds node).2 = false →
          stringsContains (CreateIngressGateway env s netid nodeid).node.PostDown node.PostDown
            = true))) := by
  constructor
  · intro env s gateway node hget hos hvalid hins hpull
    rw [CreateEgressGateway_success env s gateway node hget hos hvalid hins hpull]
    exact ⟨rfl, fun h => mergeExisting_nonempty node.PostUp _ h,
      fun h => mergeExisting_nonempty node.PostDown _ h⟩
  · intro env s netid nodeid node network hget hos hnet hins hmod
    rw [CreateIngressGateway_success env s netid nodeid node network hget hos hnet hins]
    exact ⟨hmod, fun h => mergeExisting_nonempty node.PostUp _ h,
      fun h => mergeExisting_nonempty node.PostDown _ h⟩

theorem creation_merges_existing_text_witness :
    ((CreateEgressGateway quietEnv tunedStore tunedRequest).node.PostUp =
        "sysctl -w net.ipv4.ip_forward=1; iptables -A FORWARD -i nm-mesh -j ACCEPT; iptables -A FORWARD -o nm-mesh -j ACCEPT; iptables -t nat -A POSTROUTING -o eth0 -j MASQUERADE" ∧
      stringsContains (CreateEgressGateway quietEnv tunedStore tunedRequest).node.PostUp
        "sysctl -w net.ipv4.ip_forward=1" = true) ∧
    ((CreateIngressGateway quietEnv tunedStore "mesh" "node-t").node.PostDown =
        "sysctl -w net.ipv4.ip_forward=0; iptables -D FORWARD -i nm-mesh -j ACCEPT ; iptables -D FORWARD -o nm-mesh -j ACCEPT ; iptables -t nat -D POSTROUTING -o nm-mesh -j MASQUERADE" ∧
      stringsContains (CreateIngressGateway quietEnv tunedStore "mesh" "node-t").node.PostDown
        "sysctl -w net.ipv4.ip_forward=0" = true) :=
  have h1 := (creation_merges_existing_text.1 quietEnv tunedStore tunedRequest tunedNode rfl
    (Or.inl rfl) rfl rfl rfl).2.1 (by decide)
  have h2 := (creation_merges_existing_text.2 quietEnv tunedStore "mesh" "node-t" tunedNode
    meshNetwork rfl rfl rfl rfl rfl).2.2 (by decide)
  ⟨⟨h1.1.trans rfl, h1.2 rfl⟩, ⟨h2.1.trans rfl, h2.2 rfl⟩⟩

/-- C19 (as stated) fails on `mergedStore`: the node's text already contains
the egress rules, so `CreateEgressGateway` returns the egress rules alone and
the rest of the node's text, "sysctl -w net.ipv4.ip_forward=1", is gone. -/
theorem creation_drops_existing_text :
    GetNodeByID quietEnv mergedStore "node-t" =
      ({ tunedNode with
          IsEgressGateway := "yes", EgressGatewayRanges := ["192.168.0.0/24"],
          EgressGatewayNatEnabled := "yes", LastModified := 1700000000,
          PostUp := "sysctl -w net.ipv4.ip_forward=1; iptables -A FORWARD -i nm-mesh -j ACCEPT; iptables -A FORWARD -o nm-mesh -j ACCEPT; iptables -t nat -A POSTROUTING -o eth0 -j MASQUERADE",
          PostDown := "sysctl -w net.ipv4.ip_forward=0; iptables -D FORWARD -i nm-mesh -j ACCEPT; iptables -D FORWARD -o nm-mesh -j ACCEPT; iptables -t nat -D POSTROUTING -o eth0 -j MASQUERADE" },
        none) ∧
    (CreateEgressGateway quietEnv mergedStore tunedRequest).err = none ∧
    (CreateEgressGateway quietEnv mergedStore tunedRequest).node.PostUp =
      "iptables -A FORWARD -i nm-mesh -j ACCEPT; iptables -A FORWARD -o nm-mesh -j ACCEPT; iptables -t nat -A POSTROUTING -o eth0 -j MASQUERADE" ∧
    stringsContains (CreateEgressGateway quietEnv mergedStore tunedRequest).node.PostUp
      (GetNodeByID quietEnv mergedStore "node-t").1.PostUp = false ∧
    stringsContains (CreateEgressGateway quietEnv mergedStore tunedRequest).node.PostUp
      "sysctl -w net.ipv4.ip_forward=1" = false ∧
    stringsContains (CreateEgressGateway quietEnv mergedStore tunedRequest).node.PostDown
      (GetNodeByID quietEnv mergedStore "node-t").1.PostDown = false :=
  ⟨rfl, rfl, rfl, rfl, rfl, rfl⟩

/-! ## Deactivation against activation -/

/-- C15: evaluation at `bothNftNode`, a linux node with nftables that still
holds the ingress role.  `PostUp` adds the `oifname` forward rule but
`PostDown` has no rule that deletes it, and `PostDown` is not `PostUp` with
"add" replaced by "delete".  At `bothNode`, on iptables, `PostDown` is `PostUp`
with "-A" replaced by "-D". -/
theorem deleteEgress_nftables_deactivation_mismatch :
    (DeleteEgressGateway quietEnv bothNftStore "mesh" "node-n").err = none ∧
    stringsContains (DeleteEgressGateway quietEnv bothNftStore "mesh" "node-n").node.PostUp
      "nft add rule ip filter FORWARD oifname nm-mesh counter accept" = true ∧
    stringsContains (DeleteEgressGateway quietEnv bothNftStore "mesh" "node-n").node.PostDown
      "nft delete rule ip filter FORWARD oifname nm-mesh counter accept" = false ∧
    replaceAll (DeleteEgressGateway quietEnv bothNftStore "mesh" "node-n").node.PostUp
        "add" "delete" =
      "nft delete rule ip filter FORWARD iifname nm-mesh counter accept ; nft delete rule ip filter FORWARD oifname nm-mesh counter accept ; nft delete rule ip nat POSTROUTING oifname nm-mesh counter masquerade ; " ∧
    (DeleteEgressGateway quietEnv bothNftStore "mesh" "node-n").node.PostDown =
      "nft delete rule ip filter FORWARD iifname nm-mesh counter accept ;nft delete rule ip filter FORWARD iifname nm-mesh counter accept ;nft delete rule ip nat POSTROUTING oifname nm-mesh counter masquerade " ∧
    (DeleteEgressGateway quietEnv bothNftStore "mesh" "node-n").node.PostDown ≠
      replaceAll (DeleteEgressGateway quietEnv bothNftStore "mesh" "node-n").node.PostUp
        "add" "delete" ∧
    (DeleteEgressGateway quietEnv bothStore "mesh" "node-b").node.PostDown =
      replaceAll (DeleteEgressGateway quietEnv bothStore "mesh" "node-b").node.PostUp
        "-A" "-D" := by
  refine ⟨rfl, rfl, rfl, rfl, rfl, ?_, rfl⟩
  decide
/-! ## Ingress text against egress text -/

theorem stringsContains_trans (a b c : String) (hab : stringsContains a b = true)
    (hbc : stringsContains b c = true) : stringsContains a c = true := by
  unfold stringsContains at *
  rw [containsChars_iff] at *
  exact hbc.trans hab

theorem stringsContains_length_le (s sub : String) (h : stringsContains s sub = true) :
    sub.data.length ≤ s.data.length := by
  unfold stringsContains at h
  rw [containsChars_iff] at h
  exact h.length_le

theorem stringsContains_template3_false (A C1 B C2 D F ifc w : String) (hsp : ' ' ∉ w.data)
    (hA : A.data.getLast? = some ' ') (hC1 : C1.data.head? = some ' ')
    (hC1l : C1.data.getLast? = some ' ') (hB : B.data.getLast? = some ' ')
    (hC2 : C2.data.head? = some ' ') (hC2l : C2.data.getLast? = some ' ')
    (hD : D.data.getLast? = some ' ') (hF : F.data.head? = some ' ')
    (hi : stringsContains ifc w = false)
    (wA : stringsContains A w = false) (wC1 : stringsContains C1 w = false)
    (wB : stringsContains B w = false) (wC2 : stringsContains C2 w = false)
    (wD : stringsContains D w = false) (wF : stringsContains F w = false) :
    stringsContains (A ++ ifc ++ C1 ++ (B ++ ifc ++ C2) ++ (D ++ ifc ++ F)) w = false := by
  unfold stringsContains at *
  simp only [String.data_append]
  have headOf : ∀ (l r : List Char), l.head? = some ' ' → (l ++ r).head? = some ' ' := by
    intro l r h
    cases l with
    | nil => simp at h
    | cons d l => simpa using h
  have h1 := containsChars_append_false _ _ _ hsp (Or.inr hF) hi wF
  have h2 := containsChars_append_false _ _ _ hsp (Or.inl hD) wD h1
  have h3 := containsChars_append_false _ _ _ hsp (Or.inl hC2l) wC2 h2
  have h4 := containsChars_append_false _ _ _ hsp (Or.inr (headOf _ _ hC2)) hi h3
  have h5 := containsChars_append_false _ _ _ hsp (Or.inl hB) wB h4
  have h6 := containsChars_append_false _ _ _ hsp (Or.inl hC1l) wC1 h5
  have h7 := containsChars_append_false _ _ _ hsp (Or.inr (headOf _ _ hC1)) hi h6
  have h8 := containsChars_append_false _ _ _ hsp (Or.inl hA) wA h7
  simpa [List.append_assoc] using h8

theorem ingressBackendCmds_ne_empty (node : Node) :
    (ingressBackendCmds node).1 ≠ "" ∧ (ingressBackendCmds node).2 ≠ "" := by
  unfold ingressBackendCmds
  split <;> constructor <;> intro h <;>
    · have := congrArg String.data h
      simp [String.data_append] at this

theorem ingress_iptables_lacks_egress (node : Node) (gateway : EgressGatewayRequest)
    (hos : node.OS = "linux") (hnft : node.IsNFTablesPresent ≠ "yes")
    (hif : stringsContains node.Interface "ACCEPT;" = false) :
    stringsContains (ingressBackendCmds node).1
        (egressBackendCmds (markEgress node gateway) gateway).1 = false ∧
    stringsContains (ingressBackendCmds node).2
        (egressBackendCmds (markEgress node gateway) gateway).2 = false := by
  have hI1 : stringsContains (ingressBackendCmds node).1 "ACCEPT;" = false := by
    simp only [ingressBackendCmds, hnft, if_false]
    exact stringsContains_template3_false _ _ _ _ _ _ _ _ (by decide) (by decide) (by decide)
      (by decide) (by decide) (by decide) (by decide) (by decide) (by decide) hif (by decide)
      (by decide) (by decide) (by decide) (by decide) (by decide)
  have hI2 : stringsContains (ingressBackendCmds node).2 "ACCEPT;" = false := by
    simp only [ingressBackendCmds, hnft, if_false]
    exact stringsContains_template3_false _ _ _ _ _ _ _ _ (by decide) (by decide) (by decide)
      (by decide) (by decide) (by decide) (by decide) (by decide) (by decide) hif (by decide)
      (by decide) (by decide) (by decide) (by decide) (by decide)
  have hE1 : stringsContains (egressBackendCmds (markEgress node gateway) gateway).1 "ACCEPT;"
      = true := by
    rw [egressBackendCmds_linux node gateway hos]
    simp only [hnft, if_false]
    unfold stringsContains
    rw [containsChars_iff]
    split
    · exact ⟨("iptables -A FORWARD -i " ++ node.Interface ++ " -j ").data,
        (" " ++ ("iptables -A FORWARD -o " ++ node.Interface ++ " -j ACCEPT") ++
          ("; iptables -t nat -A POSTROUTING -o " ++ gateway.Interface ++ " -j MASQUERADE")).data,
        by simp [String.data_append]⟩
    · exact ⟨("iptables -A FORWARD -i " ++ node.Interface ++ " -j ").data,
        (" " ++ ("iptables -A FORWARD -o " ++ node.Interface ++ " -j ACCEPT")).data,
        by simp [String.data_append]⟩
  have hE2 : stringsContains (egressBackendCmds (markEgress node gateway) gateway).2 "ACCEPT;"
      = true := by
    rw [egressBackendCmds_linux node gateway hos]
    simp only [hnft, if_false]
    unfold stringsContains
    rw [containsChars_iff]
    split
    · exact ⟨("iptables -D FORWARD -i " ++ node.Interface ++ " -j ").data,
        (" " ++ ("iptables -D FORWARD -o " ++ node.Interface ++ " -j ACCEPT") ++
          ("; iptables -t nat -D POSTROUTING -o " ++ gateway.Interface ++ " -j MASQUERADE")).data,
        by simp [String.data_append]⟩
    · exact ⟨("iptables -D FORWARD -i " ++ node.Interface ++ " -j ").data,
        (" " ++ ("iptables -D FORWARD -o " ++ node.Interface ++ " -j ACCEPT")).data,
        by simp [String.data_append]⟩
  constructor
  · cases h : stringsContains (ingressBackendCmds node).1
        (egressBackendCmds (markEgress node gateway) gateway).1 with
    | false => rfl
    | true =>
      have := stringsContains_trans _ _ _ h hE1
      rw [hI1] at this
      exact absurd this (by decide)
  · cases h : stringsContains (ingressBackendCmds node).2
        (egressBackendCmds (markEgress node gateway) gateway).2 with
    | false => rfl
    | true =>
      have := stringsContains_trans _ _ _ h hE2
      rw [hI2] at this
      exact absurd this (by decide)

theorem ingress_nftables_nat_lacks_egress (node : Node) (gateway : EgressGatewayRequest)
    (hos : node.OS = "linux") (hnft : node.IsNFTablesPresent = "yes")
    (hnat : gateway.NatEnabled = "yes") :
    stringsContains (ingressBackendCmds node).1
        (egressBackendCmds (markEgress node gateway) gateway).1 = false ∧
    stringsContains (ingressBackendCmds node).2
        (egressBackendCmds (markEgress node gateway) gateway).2 = false := by
  constructor
  · cases h : stringsContains (ingressBackendCmds node).1
        (egressBackendCmds (markEgress node gateway) gateway).1 with
    | false => rfl
    | true =>
      have hl := stringsContains_length_le _ _ h
      rw [egressBackendCmds_linux node gateway hos] at hl
      simp [ingressBackendCmds, hnft, hnat, String.data_append] at hl
  · cases h : stringsContains (ingressBackendCmds node).2
        (egressBackendCmds (markEgress node gateway) gateway).2 with
    | false => rfl
    | true =>
      have hl := stringsContains_length_le _ _ h
      rw [egressBackendCmds_linux node gateway hos] at hl
      simp [ingressBackendCmds, hnft, hnat, String.data_append] at hl

theorem ingress_nftables_contains_egress_without_nat (node : Node)
    (gateway : EgressGatewayRequest)
    (hos : node.OS = "linux") (hnft : node.IsNFTablesPresent = "yes")
    (hnat : gateway.NatEnabled ≠ "yes") :
    stringsContains (ingressBackendCmds node).1
        (egressBackendCmds (markEgress node gateway) gateway).1 = true ∧
    stringsContains (ingressBackendCmds node).2
        (egressBackendCmds (markEgress node gateway) gateway).2 = true := by
  rw [egressBackendCmds_linux node gateway hos]
  simp only [ingressBackendCmds, hnft, hnat, if_true, if_false]
  exact ⟨stringsContains_append_left _ _, stringsContains_append_left _ _⟩
theorem ingress_then_egress_merge (env1 env2 : Env) (s : Store) (netid nodeid : String)
    (gateway : EgressGatewayRequest) (node : Node) (network : Network)
    (hget : GetNodeByID env1 s nodeid = (node, none))
    (hid : node.ID = nodeid) (hgid : gateway.NodeID = nodeid)
    (hos : node.OS = "linux") (hpu : node.PostUp = "") (hpd : node.PostDown = "")
    (hnet : GetParentNetwork env1 s netid = (network, none))
    (hins1 : env1.insertErr = none)
    (hvalid : ValidateEgressGateway gateway = none)
    (hup : gateway.PostUp = "") (hdown : gateway.PostDown = "")
    (hlookup2 : env2.lookupErr = none) (hins2 : env2.insertErr = none)
    (hpull2 : env2.pullErr = none) :
    (CreateEgressGateway env2 (CreateIngressGateway env1 s netid nodeid).store gateway).err
      = none ∧
    (CreateEgressGateway env2 (CreateIngressGateway env1 s netid nodeid).store
        gateway).node.PostUp =
      mergeExisting (ingressBackendCmds node).1
        (egressBackendCmds (markEgress node (withDefaultNat gateway))
          (withDefaultNat gateway)).1 ∧
    (CreateEgressGateway env2 (CreateIngressGateway env1 s netid nodeid).store
        gateway).node.PostDown =
      mergeExisting (ingressBackendCmds node).2
        (egressBackendCmds (markEgress node (withDefaultNat gateway))
          (withDefaultNat gateway)).2 := by
  have e1 := CreateIngressGateway_success env1 s netid nodeid node network hget hos hnet hins1
  have hid1 : (applyCreateIngress env1.now node network).ID = gateway.NodeID :=
    hid.trans hgid.symm
  have hget2 : GetNodeByID env2 (CreateIngressGateway env1 s netid nodeid).store
      gateway.NodeID = (applyCreateIngress env1.now node network, none) := by
    rw [e1, ← hid1]
    exact GetNodeByID_after_lastModified env1 env2 s _ netid hlookup2
  rw [CreateEgressGateway_success env2 _ gateway _ hget2 (Or.inl hos) hvalid hins2 hpull2]
  obtain ⟨-, hu, hd, -⟩ := withDefaultNat_fields gateway
  refine ⟨rfl, ?_, ?_⟩
  · simp only [applyCreateEgress, applyCreateIngress, egressCmds, markEgress, hu, hup, hpu,
      mergeExisting_empty, ne_eq, not_true_eq_false, if_false]
    rfl
  · simp only [applyCreateEgress, applyCreateIngress, egressCmds, markEgress, hd, hdown, hpd,
      mergeExisting_empty, ne_eq, not_true_eq_false, if_false]
    rfl

/-- C16 (as amended): for a stored linux node without text, `CreateIngressGateway`
followed by `CreateEgressGateway` (valid request without text of its own,
naming the node's interface or any other) succeeds and merges the two command
strings as wholes.
On iptables (interface name without "ACCEPT;") and on nftables with NAT
enabled the ingress text does not contain the egress command string, and the
result is the ingress text, "; " and the egress command string, so that the
rules of both are there twice.  On nftables with NAT disabled the ingress
text contains the egress command string and the result is that string alone. -/
theorem ingress_then_egress_text (env1 env2 : Env) (s : Store) (netid nodeid : String)
    (gateway : EgressGatewayRequest) (node : Node) (network : Network)
    (hget : GetNodeByID env1 s nodeid = (node, none))
    (hid : node.ID = nodeid) (hgid : gateway.NodeID = nodeid)
    (hos : node.OS = "linux") (hpu : node.PostUp = "") (hpd : node.PostDown = "")
    (hnet : GetParentNetwork env1 s netid = (network, none))
    (hins1 : env1.insertErr = none)
    (hvalid : ValidateEgressGateway gateway = none)
    (hup : gateway.PostUp = "") (hdown : gateway.PostDown = "")
    (hlookup2 : env2.lookupErr = none) (hins2 : env2.insertErr = none)
    (hpull2 : env2.pullErr = none) :
    (CreateEgressGateway env2 (CreateIngressGateway env1 s netid nodeid).store gateway).err
      = none ∧
    (((node.IsNFTablesPresent ≠ "yes" ∧ stringsContains node.Interface "ACCEPT;" = false) ∨
        (node.IsNFTablesPresent = "yes" ∧
          (gateway.NatEnabled = "yes" ∨ gateway.NatEnabled = ""))) →
      (CreateEgressGateway env2 (CreateIngressGateway env1 s netid nodeid).store
          gateway).node.PostUp =
        (ingressBackendCmds node).1 ++ "; " ++
          (egressBackendCmds (markEgress node (withDefaultNat gateway))
            (withDefaultNat gateway)).1 ∧
      (CreateEgressGateway env2 (CreateIngressGateway env1 s netid nodeid).store
          gateway).node.PostDown =
        (ingressBackendCmds node).2 ++ "; " ++
          (egressBackendCmds (markEgress node (withDefaultNat gateway))
            (withDefaultNat gateway)).2) ∧
    (node.IsNFTablesPresent = "yes" →
      ¬ (gateway.NatEnabled = "yes" ∨ gateway.NatEnabled = "") →
      (CreateEgressGateway env2 (CreateIngressGateway env1 s netid nodeid).store
          gateway).node.PostUp =
        (egressBackendCmds (markEgress node (withDefaultNat gateway))
          (withDefaultNat gateway)).1 ∧
      (CreateEgressGateway env2 (CreateIngressGateway env1 s netid nodeid).store
          gateway).node.PostDown =
        (egressBackendCmds (markEgress node (withDefaultNat gateway))
          (withDefaultNat gateway)).2) := by
  obtain ⟨herr, h1, h2⟩ := ingress_then_egress_merge env1 env2 s netid nodeid gateway node
    network hget hid hgid hos hpu hpd hnet hins1 hvalid hup hdown hlookup2 hins2 hpull2
  obtain ⟨hne1, hne2⟩ := ingressBackendCmds_ne_empty node
  have hm1 := (mergeExisting_nonempty (ingressBackendCmds node).1
    (egressBackendCmds (markEgress node (withDefaultNat gateway)) (withDefaultNat gateway)).1
    hne1).1
  have hm2 := (mergeExisting_nonempty (ingressBackendCmds node).2
    (egressBackendCmds (markEgress node (withDefaultNat gateway)) (withDefaultNat gateway)).2
    hne2).1
  rw [h1, h2, hm1, hm2]
  refine ⟨herr, fun h => ?_, fun hnft hnat => ?_⟩
  · have hlack : stringsContains (ingressBackendCmds node).1
          (egressBackendCmds (markEgress node (withDefaultNat gateway))
            (withDefaultNat gateway)).1 = false ∧
        stringsContains (ingressBackendCmds node).2
          (egressBackendCmds (markEgress node (withDefaultNat gateway))
            (withDefaultNat gateway)).2 = false := by
      rcases h with ⟨hnft, hacc⟩ | ⟨hnft, hnat⟩
      · exact ingress_iptables_lacks_egress node _ hos hnft hacc
      · exact ingress_nftables_nat_lacks_egress node _ hos hnft
          ((withDefaultNat_NatEnabled gateway).2 hnat)
    simp only [hlack.1, hlack.2, Bool.false_eq_true, if_false]
    exact ⟨trivial, trivial⟩
  · have hcont := ingress_nftables_contains_egress_without_nat node (withDefaultNat gateway)
      hos hnft (fun h => hnat ((withDefaultNat_NatEnabled gateway).1 h))
    simp only [hcont.1, hcont.2, if_true]
    exact ⟨trivial, trivial⟩

theorem ingress_then_egress_text_witness :
    (CreateEgressGateway quietEnv (CreateIngressGateway quietEnv plainStore "mesh"
        "node-p").store sameIfRequest).node.PostUp =
      "iptables -A FORWARD -i nm-mesh -j ACCEPT ; iptables -A FORWARD -o nm-mesh -j ACCEPT ; iptables -t nat -A POSTROUTING -o nm-mesh -j MASQUERADE; iptables -A FORWARD -i nm-mesh -j ACCEPT; iptables -A FORWARD -o nm-mesh -j ACCEPT; iptables -t nat -A POSTROUTING -o nm-mesh -j MASQUERADE" ∧
    (CreateEgressGateway quietEnv (CreateIngressGateway quietEnv nftStore "mesh"
        "node-q").store nftNoNatRequest).node.PostUp =
      "nft add rule ip filter FORWARD iifname nm-mesh counter accept ; nft add rule ip filter FORWARD oifname nm-mesh counter accept ; " :=
  ⟨(((ingress_then_egress_text quietEnv quietEnv plainStore "mesh" "node-p" sameIfRequest
      plainNode meshNetwork rfl rfl rfl rfl rfl rfl rfl rfl rfl rfl rfl rfl rfl rfl).2.1
      (Or.inl ⟨by decide, rfl⟩)).1).trans rfl,
    (((ingress_then_egress_text quietEnv quietEnv nftStore "mesh" "node-q" nftNoNatRequest
      nftNode meshNetwork rfl rfl rfl rfl rfl rfl rfl rfl rfl rfl rfl rfl rfl rfl).2.2
      rfl (by decide)).1).trans rfl⟩

/-- C16 (as stated) fails at `plainNode`: after `CreateIngressGateway` and
`CreateEgressGateway` on the node's interface each of the three rules occurs
twice in `PostUp` and twice in `PostDown`.  At `nftNode` with NAT disabled
the masquerade rule of the ingress role does not occur at all. -/
theorem ingress_then_egress_repeats_rules :
    (CreateEgressGateway quietEnv (CreateIngressGateway quietEnv plainStore "mesh"
        "node-p").store sameIfRequest).err = none ∧
    occurrences (CreateEgressGateway quietEnv (CreateIngressGateway quietEnv plainStore "mesh"
        "node-p").store sameIfRequest).node.PostUp
      "iptables -A FORWARD -i nm-mesh -j ACCEPT" = 2 ∧
    occurrences (CreateEgressGateway quietEnv (CreateIngressGateway quietEnv plainStore "mesh"
        "node-p").store sameIfRequest).node.PostUp
      "iptables -A FORWARD -o nm-mesh -j ACCEPT" = 2 ∧
    occurrences (CreateEgressGateway quietEnv (CreateIngressGateway quietEnv plainStore "mesh"
        "node-p").store sameIfRequest).node.PostUp
      "iptables -t nat -A POSTROUTING -o nm-mesh -j MASQUERADE" = 2 ∧
    occurrences (CreateEgressGateway quietEnv (CreateIngressGateway quietEnv plainStore "mesh"
        "node-p").store sameIfRequest).node.PostDown
      "iptables -D FORWARD -i nm-mesh -j ACCEPT" = 2 ∧
    occurrences (CreateEgressGateway quietEnv (CreateIngressGateway quietEnv plainStore "mesh"
        "node-p").store sameIfRequest).node.PostDown
      "iptables -D FORWARD -o nm-mesh -j ACCEPT" = 2 ∧
    occurrences (CreateEgressGateway quietEnv (CreateIngressGateway quietEnv plainStore "mesh"
        "node-p").store sameIfRequest).node.PostDown
      "iptables -t nat -D POSTROUTING -o nm-mesh -j MASQUERADE" = 2 ∧
    (CreateEgressGateway quietEnv (CreateIngressGateway quietEnv nftStore "mesh"
        "node-q").store nftNoNatRequest).node.IsIngressGateway = "yes" ∧
    occurrences (CreateEgressGateway quietEnv (CreateIngressGateway quietEnv nftStore "mesh"
        "node-q").store nftNoNatRequest).node.PostUp
      "nft add rule ip nat POSTROUTING oifname nm-mesh counter masquerade" = 0 :=
  ⟨rfl, rfl, rfl, rfl, rfl, rfl, rfl, rfl, rfl⟩
/-! ## The egress text kept when the ingress role goes -/

theorem egressBackendCmds_congr (n1 n2 : Node) (g1 g2 : EgressGatewayRequest)
    (hos : n1.OS = n2.OS) (hnft : n1.IsNFTablesPresent = n2.IsNFTablesPresent)
    (hif : n1.Interface = n2.Interface)
    (hnat : n1.EgressGatewayNatEnabled = n2.EgressGatewayNatEnabled)
    (hg : g1.Interface = g2.Interface) :
    egressBackendCmds n1 g1 = egressBackendCmds n2 g2 := by
  simp only [egressBackendCmds, hos, hnft, hif, hnat, hg]

theorem retainedEgressCmds_eq (node : Node) (gateway : EgressGatewayRequest)
    (hegress : node.IsEgressGateway = "yes")
    (hos : node.OS = "linux" ∨ node.OS = "freebsd")
    (hif : gateway.Interface = node.Interface) :
    retainedEgressCmds node = egressBackendCmds node gateway := by
  have h1 : ¬ ("linux" = "freebsd") := by decide
  have h2 : ¬ ("freebsd" = "linux") := by decide
  rcases hos with hos | hos
  · simp only [retainedEgressCmds, egressBackendCmds, hegress, hos, h1, hif, if_true, if_false]
  · simp only [retainedEgressCmds, egressBackendCmds, hegress, hos, h2, hif, if_true, if_false]

/-- C17: for a stored node that holds the egress role on linux or freebsd, the
`PostUp` and `PostDown` that a successful `DeleteIngressGateway` returns are
the text lines 33-75 of `CreateEgressGateway` compose for the node with its
NAT flag and a request naming the node's interface, and they are the `PostUp`
and `PostDown` of a successful `CreateEgressGateway` on the same node without
text, for a valid request without text of its own that names the node's
interface and puts the node's NAT flag on it.  On linux the text is the two
forward rules followed by the masquerade rule exactly when
`EgressGatewayNatEnabled = "yes"`. -/
theorem DeleteIngressGateway_retained_egress (env : Env) (s : Store)
    (networkName nodeid : String) (node : Node) (network : Network)
    (hget : GetNodeByID env s nodeid = (node, none))
    (hnet : GetParentNetwork env s networkName = (network, none))
    (hlist : env.listErr = none ∨ IsEmptyRecord env.listErr = true)
    (hins : env.insertErr = none)
    (hegress : node.IsEgressGateway = "yes")
    (hos : node.OS = "linux" ∨ node.OS = "freebsd") :
    (∀ gateway : EgressGatewayRequest, gateway.Interface = node.Interface →
      (DeleteIngressGateway env s networkName nodeid).node.PostUp =
        (egressBackendCmds node gateway).1 ∧
      (DeleteIngressGateway env s networkName nodeid).node.PostDown =
        (egressBackendCmds node gateway).2) ∧
    (∀ (env2 : Env) (s2 : Store) (gateway : EgressGatewayRequest),
      GetNodeByID env2 s2 gateway.NodeID = ({ node with PostUp := "", PostDown := "" }, none) →
      ValidateEgressGateway gateway = none →
      gateway.Interface = node.Interface →
      (withDefaultNat gateway).NatEnabled = node.EgressGatewayNatEnabled →
      gateway.PostUp = "" → gateway.PostDown = "" →
      env2.insertErr = none → env2.pullErr = none →
      (CreateEgressGateway env2 s2 gateway).err = none ∧
      (DeleteIngressGateway env s networkName nodeid).node.PostUp =
        (CreateEgressGateway env2 s2 gateway).node.PostUp ∧
      (DeleteIngressGateway env s networkName nodeid).node.PostDown =
        (CreateEgressGateway env2 s2 gateway).node.PostDown) ∧
    (node.OS = "linux" → node.IsNFTablesPresent = "yes" →
      (DeleteIngressGateway env s networkName nodeid).node.PostUp =
        "nft add rule ip filter FORWARD iifname " ++ node.Interface ++
          " counter accept ; nft add rule ip filter FORWARD oifname " ++ node.Interface ++
          " counter accept ; " ++
          (if node.EgressGatewayNatEnabled = "yes" then
            "nft add rule ip nat POSTROUTING oifname " ++ node.Interface ++
              " counter masquerade ;"
          else "") ∧
      (DeleteIngressGateway env s networkName nodeid).node.PostDown =
        "nft delete rule ip filter FORWARD iifname " ++ node.Interface ++
          " counter accept ; nft delete rule ip filter FORWARD oifname " ++ node.Interface ++
          " counter accept ; " ++
          (if node.EgressGatewayNatEnabled = "yes" then
            "nft delete rule ip nat POSTROUTING oifname " ++ node.Interface ++
              " counter masquerade ;"
          else "")) ∧
    (node.OS = "linux" → node.IsNFTablesPresent ≠ "yes" →
      (DeleteIngressGateway env s networkName nodeid).node.PostUp =
        "iptables -A FORWARD -i " ++ node.Interface ++
          " -j ACCEPT; iptables -A FORWARD -o " ++ node.Interface ++ " -j ACCEPT" ++
          (if node.EgressGatewayNatEnabled = "yes" then
            "; iptables -t nat -A POSTROUTING -o " ++ node.Interface ++ " -j MASQUERADE"
          else "") ∧
      (DeleteIngressGateway env s networkName nodeid).node.PostDown =
        "iptables -D FORWARD -i " ++ node.Interface ++
          " -j ACCEPT; iptables -D FORWARD -o " ++ node.Interface ++ " -j ACCEPT" ++
          (if node.EgressGatewayNatEnabled = "yes" then
            "; iptables -t nat -D POSTROUTING -o " ++ node.Interface ++ " -j MASQUERADE"
          else "")) := by
  rw [DeleteIngressGateway_success env s networkName nodeid node network hget hnet hlist hins]
  have hret : ∀ gateway : EgressGatewayRequest, gateway.Interface = node.Interface →
      (applyDeleteIngress env.now node network).PostUp = (egressBackendCmds node gateway).1 ∧
      (applyDeleteIngress env.now node network).PostDown =
        (egressBackendCmds node gateway).2 := by
    intro gateway hif
    have h := retainedEgressCmds_eq
      { node with
        UDPHolePunch := network.DefaultUDPHolePunch, LastModified := env.now,
        IsIngressGateway := "no", IngressGatewayRange := "" }
      gateway hegress hos hif
    have hc := egressBackendCmds_congr
      { node with
        UDPHolePunch := network.DefaultUDPHolePunch, LastModified := env.now,
        IsIngressGateway := "no", IngressGatewayRange := "" }
      node gateway gateway rfl rfl rfl rfl rfl
    rw [hc] at h
    exact ⟨congrArg Prod.fst h, congrArg Prod.snd h⟩
  refine ⟨hret, ?_, ?_, ?_⟩
  · intro env2 s2 gateway hget2 hvalid hif hnat hup hdown hins2 hpull2
    rw [CreateEgressGateway_success env2 s2 gateway _ hget2 hos hvalid hins2 hpull2]
    obtain ⟨hi, hu, hd, -⟩ := withDefaultNat_fields gateway
    have htext := applyCreateEgress_text env2.now { node with PostUp := "", PostDown := "" }
      (withDefaultNat gateway) (hu.trans hup) (hd.trans hdown) rfl rfl
    have hc := egressBackendCmds_congr
      (markEgress { node with PostUp := "", PostDown := "" } (withDefaultNat gateway)) node
      (withDefaultNat gateway) gateway rfl rfl rfl hnat hi
    obtain ⟨h1, h2⟩ := hret gateway hif
    refine ⟨rfl, ?_, ?_⟩
    · show (applyDeleteIngress env.now node network).PostUp = _
      rw [h1, htext.1, hc]
    · show (applyDeleteIngress env.now node network).PostDown = _
      rw [h2, htext.2, hc]
  · intro hl hnft
    obtain ⟨h1, h2⟩ := hret
      { NodeID := "", NetID := "", NatEnabled := "", Ranges := [], Interface := node.Interface,
        PostUp := "", PostDown := "" } rfl
    have hne : ¬ ("linux" = "freebsd") := by decide
    constructor
    · show (applyDeleteIngress env.now node network).PostUp = _
      rw [h1]
      simp only [egressBackendCmds, hl, hnft, hne, if_true, if_false]
      split <;> (apply String.ext; simp [String.data_append])
    · show (applyDeleteIngress env.now node network).PostDown = _
      rw [h2]
      simp only [egressBackendCmds, hl, hnft, hne, if_true, if_false]
      split <;> (apply String.ext; simp [String.data_append])
  · intro hl hnft
    obtain ⟨h1, h2⟩ := hret
      { NodeID := "", NetID := "", NatEnabled := "", Ranges := [], Interface := node.Interface,
        PostUp := "", PostDown := "" } rfl
    have hne : ¬ ("linux" = "freebsd") := by decide
    constructor
    · show (applyDeleteIngress env.now node network).PostUp = _
      rw [h1]
      simp only [egressBackendCmds, hl, hnft, hne, if_true, if_false]
      split <;> (apply String.ext; simp [String.data_append])
    · show (applyDeleteIngress env.now node network).PostDown = _
      rw [h2]
      simp only [egressBackendCmds, hl, hnft, hne, if_true, if_false]
      split <;> (apply String.ext; simp [String.data_append])

theorem DeleteIngressGateway_retained_egress_witness :
    (CreateEgressGateway quietEnv clearedBothStore bothRequest).err = none ∧
    (DeleteIngressGateway quietEnv bothStore "mesh" "node-b").node.PostUp =
      (CreateEgressGateway quietEnv clearedBothStore bothRequest).node.PostUp ∧
    (DeleteIngressGateway quietEnv bothStore "mesh" "node-b").node.PostDown =
      (CreateEgressGateway quietEnv clearedBothStore bothRequest).node.PostDown ∧
    (DeleteIngressGateway quietEnv bothStore "mesh" "node-b").node.PostUp =
      "iptables -A FORWARD -i nm-mesh -j ACCEPT; iptables -A FORWARD -o nm-mesh -j ACCEPT; iptables -t nat -A POSTROUTING -o nm-mesh -j MASQUERADE" :=
  have h := DeleteIngressGateway_retained_egress quietEnv bothStore "mesh" "node-b" bothNode
    meshNetwork rfl rfl (Or.inl rfl) rfl rfl (Or.inl rfl)
  have h2 := h.2.1 quietEnv clearedBothStore bothRequest rfl rfl rfl rfl rfl rfl rfl rfl
  ⟨h2.1, h2.2.1, h2.2.2, ((h.2.2.2 rfl (by decide)).1).trans rfl⟩
end Netmaker
